import Mathlib

/-!
Verification of the craft-agents automations subsystem.

This file gives a shallow embedding, in Lean 4, of the orchestration core of
the automations system: the persistent store for automation definitions and
run records (storage.ts), the trigger registry (triggers.ts) and the
automation manager (automation-manager.ts).  Pure functions of the source are
translated to Lean functions; the mutable in-memory tables (JS `Map`s) become
association lists threaded through explicit state; the asynchronous
`executeAutomation` is split at its `await` suspension points into explicit
phases so that interleavings of concurrent calls can be analysed; external
collaborators (workspace resolution, the session manager, `Date.now`) are
supplied as explicit environment parameters recording their outcomes.
-/

/-! ## Association lists, modelling JS `Map` and keyed JSON files -/

/-- Lookup in an association list, modelling `Map.get` / keyed file reads. -/
def alookup {α β : Type} [DecidableEq α] (k : α) : List (α × β) → Option β
  | [] => none
  | (k', v) :: t => if k' = k then some v else alookup k t

/-- Insert-or-replace in an association list, modelling `Map.set` and
overwriting a keyed JSON file: an existing binding is replaced in place,
otherwise the new binding is appended. -/
def aset {α β : Type} [DecidableEq α] (k : α) (v : β) : List (α × β) → List (α × β)
  | [] => [(k, v)]
  | (k', v') :: t => if k' = k then (k, v) :: t else (k', v') :: aset k v t

/-- Delete a key from an association list, modelling `Map.delete`. -/
def aerase {α β : Type} [DecidableEq α] (k : α) : List (α × β) → List (α × β)
  | [] => []
  | (k', v) :: t => if k' = k then aerase k t else (k', v) :: aerase k t

theorem alookup_aset_self {α β : Type} [DecidableEq α] (k : α) (v : β)
    (l : List (α × β)) : alookup k (aset k v l) = some v := by
  induction l with
  | nil => simp [aset, alookup]
  | cons h t ih =>
    by_cases hk : h.1 = k
    · simp [aset, hk, alookup]
    · simp [aset, hk, alookup, ih]

theorem alookup_aset_ne {α β : Type} [DecidableEq α] {k k' : α} (v : β)
    (l : List (α × β)) (h : k' ≠ k) :
    alookup k' (aset k v l) = alookup k' l := by
  have hkk : ¬ k = k' := fun he => h he.symm
  induction l with
  | nil => simp [aset, alookup, hkk]
  | cons hd t ih =>
    by_cases hk : hd.1 = k
    · subst hk
      simp [aset, alookup, hkk]
    · by_cases hk' : hd.1 = k'
      · simp [aset, hk, alookup, hk', h]
      · simp [aset, hk, alookup, hk', ih]

theorem alookup_aerase_self {α β : Type} [DecidableEq α] (k : α)
    (l : List (α × β)) : alookup k (aerase k l) = none := by
  induction l with
  | nil => simp [aerase, alookup]
  | cons hd t ih =>
    by_cases hk : hd.1 = k
    · simp [aerase, hk, ih]
    · simp [aerase, hk, alookup, ih]

theorem alookup_aerase_ne {α β : Type} [DecidableEq α] {k k' : α}
    (l : List (α × β)) (h : k' ≠ k) :
    alookup k' (aerase k l) = alookup k' l := by
  have hkk : ¬ k = k' := fun he => h he.symm
  induction l with
  | nil => simp [aerase]
  | cons hd t ih =>
    by_cases hk : hd.1 = k
    · subst hk
      simp [aerase, alookup, hkk, ih]
    · by_cases hk' : hd.1 = k'
      · simp [aerase, hk, alookup, hk', h]
      · simp [aerase, hk, alookup, hk', ih]

theorem aset_length_le {α β : Type} [DecidableEq α] (k : α) (v : β)
    (l : List (α × β)) : (aset k v l).length ≤ l.length + 1 := by
  induction l with
  | nil => simp [aset]
  | cons hd t ih =>
    by_cases hk : hd.1 = k
    · simp [aset, hk]
    · simpa [aset, hk] using Nat.succ_le_succ ih

/-! ## Data model (types.ts) -/

/-- Supported trigger types (`TriggerType` in types.ts). -/
inductive TriggerType
  | schedule | fileChange | hotkey | webhook | deepLink
  | appEvent | powerEvent | clipboard | folderAction | manual
deriving DecidableEq

/-- `ScheduleTriggerConfig`. -/
structure ScheduleTriggerConfig where
  cron : Option String
  rrule : Option String
  timezone : Option String
deriving DecidableEq

/-- File-change event kinds (`'add' | 'change' | 'unlink'`). -/
inductive FcEventKind
  | add | change | unlink
deriving DecidableEq

/-- `FileChangeTriggerConfig`. -/
structure FileChangeTriggerConfig where
  paths : List String
  patterns : Option (List String)
  events : List FcEventKind
  debounceMs : Option Nat
deriving DecidableEq

/-- `HotkeyTriggerConfig`. -/
structure HotkeyTriggerConfig where
  accelerator : String
deriving DecidableEq

/-- `WebhookTriggerConfig`. -/
structure WebhookTriggerConfig where
  path : Option String
  secret : Option String
deriving DecidableEq

/-- App event names (`'app-ready' | 'window-focus' | 'window-blur'`). -/
inductive AppEventName
  | appReady | windowFocus | windowBlur
deriving DecidableEq

/-- `AppEventTriggerConfig`. -/
structure AppEventTriggerConfig where
  events : List AppEventName
deriving DecidableEq

/-- Power event names. -/
inductive PowerEventName
  | onAc | onBattery | suspend | resume | lockScreen | unlockScreen
deriving DecidableEq

/-- `PowerEventTriggerConfig`. -/
structure PowerEventTriggerConfig where
  events : List PowerEventName
deriving DecidableEq

/-- `ClipboardTriggerConfig`. -/
structure ClipboardTriggerConfig where
  pattern : Option String
  pollIntervalMs : Option Nat
deriving DecidableEq

/-- `FolderActionTriggerConfig`. -/
structure FolderActionTriggerConfig where
  folderPath : String
  extensions : Option (List String)
  namePattern : Option String
  minSize : Option Nat
  maxSize : Option Nat
  doneFolder : Option String
deriving DecidableEq

/-- Discriminated union of trigger configurations (`TriggerConfig`). -/
inductive TriggerConfig
  | schedule (c : ScheduleTriggerConfig)
  | fileChange (c : FileChangeTriggerConfig)
  | hotkey (c : HotkeyTriggerConfig)
  | webhook (c : WebhookTriggerConfig)
  | deepLink
  | appEvent (c : AppEventTriggerConfig)
  | powerEvent (c : PowerEventTriggerConfig)
  | clipboard (c : ClipboardTriggerConfig)
  | folderAction (c : FolderActionTriggerConfig)
  | manual
deriving DecidableEq

/-- Permission modes (`'safe' | 'ask' | 'allow-all'`). -/
inductive PermissionMode
  | safe | ask | allowAll
deriving DecidableEq

/-- `ActionConfig`: execution policy of an automation. -/
structure ActionConfig where
  model : Option String
  permissionMode : Option PermissionMode
  maxTurns : Option Nat
  timeoutSeconds : Option Nat
  sourceSlugs : Option (List String)
  skillSlugs : Option (List String)
  workingDirectory : Option String
deriving DecidableEq

/-- `AutomationRunStatus`. -/
inductive AutomationRunStatus
  | pending | running | success | failure | cancelled
deriving DecidableEq

/-- The non-null values of `AutomationLastStatus`; the field itself is an
`Option` of this type, `none` modelling TypeScript `null`. -/
inductive AutomationLastStatus
  | success | failure | running
deriving DecidableEq

/-- Structured trigger context (`Record<string, unknown>`), modelled as a
key/value list of strings. -/
def Ctx : Type := List (String × String)

instance : DecidableEq Ctx := by
  unfold Ctx
  infer_instance

/-- `Automation`: a stored automation definition. -/
structure Automation where
  id : String
  name : String
  prompt : String
  triggerConfig : TriggerConfig
  actionConfig : ActionConfig
  enabled : Bool
  lastRunAt : Option String
  nextRunAt : Option String
  createdAt : String
  updatedAt : String
  workspaceId : String
  runCount : Nat
  lastStatus : Option AutomationLastStatus
deriving DecidableEq

/-- `AutomationRun`: the record of a single execution attempt. -/
structure AutomationRun where
  id : String
  automationId : String
  status : AutomationRunStatus
  startedAt : String
  completedAt : Option String
  sessionId : Option String
  summary : Option String
  error : Option String
  triggeredBy : TriggerType
  triggerContext : Option Ctx
deriving DecidableEq

/-! ## Persistent store (storage.ts)

The JSON-file store is modelled as explicit state: run records are keyed by
`(workspaceRoot, runId)` (one file per run under the workspace's `runs/`
directory) and automation definitions by `workspaceRoot` (one `config.json`
array per workspace).  `runLog` records, in chronological order, every write
performed by `saveRun`, so that theorems can speak about which statuses a run
record was ever persisted with. -/

/-- The persisted store: run files, per-workspace automation configs, and a
chronological log of run-record writes. -/
structure Store where
  runs : List ((String × String) × AutomationRun)
  autos : List (String × List Automation)
  runLog : List (String × AutomationRun)
deriving DecidableEq

/-- `loadAutomations(workspaceRoot)`: the workspace's `config.json` array,
empty when the file is absent. -/
def loadAutomations (workspaceRoot : String) (st : Store) : List Automation :=
  (alookup workspaceRoot st.autos).getD []

/-- `saveAutomations(workspaceRoot, automations)`. -/
def saveAutomations (workspaceRoot : String) (autos : List Automation)
    (st : Store) : Store :=
  { st with autos := aset workspaceRoot autos st.autos }

/-- `getAutomation(workspaceRoot, automationId)`. -/
def getAutomation (workspaceRoot automationId : String) (st : Store) :
    Option Automation :=
  (loadAutomations workspaceRoot st).find? (fun a => a.id == automationId)

/-- `saveRun(workspaceRoot, run)`: writes `runs/{run.id}.json` and is recorded
in the write log. -/
def saveRun (workspaceRoot : String) (run : AutomationRun) (st : Store) : Store :=
  { st with
    runs := aset (workspaceRoot, run.id) run st.runs
    runLog := st.runLog ++ [(workspaceRoot, run)] }

/-- `getRun(workspaceRoot, runId)`. -/
def getRun (workspaceRoot runId : String) (st : Store) : Option AutomationRun :=
  alookup (workspaceRoot, runId) st.runs

/-- `createRun(workspaceRoot, automationId, triggeredBy, triggerContext)`:
builds a fresh `pending` run and persists it.  The generated id and the
current timestamp are passed in explicitly (`generateId()` / `new Date()`). -/
def createRun (workspaceRoot automationId : String) (triggeredBy : TriggerType)
    (triggerContext : Option Ctx) (newId now : String) (st : Store) :
    AutomationRun × Store :=
  let run : AutomationRun :=
    { id := newId
      automationId := automationId
      status := .pending
      startedAt := now
      completedAt := none
      sessionId := none
      summary := none
      error := none
      triggeredBy := triggeredBy
      triggerContext := triggerContext }
  (run, saveRun workspaceRoot run st)

/-- The `updates` argument of `updateRun`
(`Partial<Pick<AutomationRun, 'status'|'completedAt'|'sessionId'|'summary'|'error'>>`).
The outer `Option` models presence of the field in the object; for nullable
fields the inner `Option` models TypeScript `null`. -/
structure RunUpdates where
  status : Option AutomationRunStatus
  completedAt : Option (Option String)
  sessionId : Option (Option String)
  summary : Option (Option String)
  error : Option (Option String)
deriving DecidableEq

/-- The spread `{ ...run, ...updates }`: each field present in `updates`
replaces the stored one; all other fields are kept. -/
def applyRunUpdates (r : AutomationRun) (u : RunUpdates) : AutomationRun :=
  { r with
    status := u.status.getD r.status
    completedAt := u.completedAt.getD r.completedAt
    sessionId := u.sessionId.getD r.sessionId
    summary := u.summary.getD r.summary
    error := u.error.getD r.error }

/-- `updateRun(workspaceRoot, runId, updates)`: `null` (here `none`) and no
write when the run does not exist, otherwise the merged record is persisted
and returned. -/
def updateRun (workspaceRoot runId : String) (u : RunUpdates) (st : Store) :
    Option AutomationRun × Store :=
  match getRun workspaceRoot runId st with
  | none => (none, st)
  | some r =>
    let updated := applyRunUpdates r u
    (some updated, saveRun workspaceRoot updated st)

/-- Replace the first list element satisfying `p` (the
`findIndex` / assign-at-index pattern of `updateAutomationAfterRun`). -/
def updateFirst {α : Type} (p : α → Bool) (f : α → α) : List α → List α
  | [] => []
  | x :: t => if p x then f x :: t else x :: updateFirst p f t

/-- The per-automation field mutation performed by `updateAutomationAfterRun`:
`lastRunAt = run.completedAt ?? run.startedAt`, `lastStatus` mapped from the
run status (left unchanged unless the run is `success`/`failure`/`running`),
`runCount += 1`, `updatedAt = new Date()` (passed in as `now`). -/
def applyAfterRun (run : AutomationRun) (now : String) (a : Automation) :
    Automation :=
  { a with
    lastRunAt := some (run.completedAt.getD run.startedAt)
    lastStatus :=
      match run.status with
      | .success => some .success
      | .failure => some .failure
      | .running => some .running
      | _ => a.lastStatus
    runCount := a.runCount + 1
    updatedAt := now }

/-- `updateAutomationAfterRun(workspaceRoot, automationId, run)`: no-op when
the automation is not found, otherwise the first automation with the id is
mutated and the whole array saved back. -/
def updateAutomationAfterRun (workspaceRoot automationId : String)
    (run : AutomationRun) (now : String) (st : Store) : Store :=
  let autosList := loadAutomations workspaceRoot st
  if autosList.any (fun a => a.id == automationId) then
    saveAutomations workspaceRoot
      (updateFirst (fun a => a.id == automationId) (applyAfterRun run now) autosList)
      st
  else st

theorem updateAutomationAfterRun_runs (workspaceRoot automationId : String)
    (run : AutomationRun) (now : String) (st : Store) :
    (updateAutomationAfterRun workspaceRoot automationId run now st).runs
      = st.runs := by
  unfold updateAutomationAfterRun saveAutomations
  by_cases h : (loadAutomations workspaceRoot st).any (fun a => a.id == automationId)
  · simp [h]
  · simp [h]

theorem updateAutomationAfterRun_runLog (workspaceRoot automationId : String)
    (run : AutomationRun) (now : String) (st : Store) :
    (updateAutomationAfterRun workspaceRoot automationId run now st).runLog
      = st.runLog := by
  unfold updateAutomationAfterRun saveAutomations
  by_cases h : (loadAutomations workspaceRoot st).any (fun a => a.id == automationId)
  · simp [h]
  · simp [h]

theorem getRun_updateAutomationAfterRun (root' runId' workspaceRoot automationId : String)
    (run : AutomationRun) (now : String) (st : Store) :
    getRun root' runId' (updateAutomationAfterRun workspaceRoot automationId run now st)
      = getRun root' runId' st := by
  unfold getRun
  rw [updateAutomationAfterRun_runs]

/-- `updateFirst` on a list whose first match is `a`. -/
theorem updateFirst_append {α : Type} (p : α → Bool) (f : α → α)
    (pre : List α) (a : α) (post : List α)
    (hpre : ∀ b ∈ pre, p b = false) (ha : p a = true) :
    updateFirst p f (pre ++ a :: post) = pre ++ f a :: post := by
  induction pre with
  | nil => simp [updateFirst, ha]
  | cons x t ih =>
    have hx : p x = false := hpre x (List.mem_cons_self x t)
    simp only [List.cons_append, updateFirst, hx, Bool.false_eq_true, if_false,
      List.cons.injEq, true_and]
    exact ih (fun b hb => hpre b (List.mem_cons_of_mem x hb))

/-! ## Trigger registry (triggers.ts)

The registry owns the `triggers` map (automation id → registered trigger).
Each per-kind strategy that succeeds creates a bundle of underlying host
resources (a cron job, a global shortcut, file watchers, event listeners, a
polling interval); we model each such bundle by a fresh numeric subscription
id recorded in `liveSubs` together with its owning automation id.  A trigger
entry's `stop()` capability removes exactly its own bundle.  Host-side
conditions that the source consults (`existsSync`, `fs.watch` not throwing,
`globalShortcut.register` succeeding, the `Cron` constructor not throwing)
are supplied by a `TriggerEnv` oracle. -/

/-- A registered trigger (`RegisteredTrigger`): automation id, trigger kind,
and the subscription bundle its `stop()` tears down. -/
structure RegisteredTrigger where
  automationId : String
  type : TriggerType
  subId : Nat
deriving DecidableEq

/-- The trigger registry state. -/
structure RegistryState where
  triggers : List (String × RegisteredTrigger)
  liveSubs : List (Nat × String)
  nextSubId : Nat
deriving DecidableEq

/-- Host-environment oracle for trigger registration. -/
structure TriggerEnv where
  cronOk : String → Bool
  hotkeyBindOk : String → Bool
  pathExists : String → Bool
  watchOk : String → Bool

/-- `unregister(automationId)`: stops the underlying subscription and removes
the table entry; no-op when absent. -/
def unregister (automationId : String) (rs : RegistryState) : RegistryState :=
  match alookup automationId rs.triggers with
  | none => rs
  | some e =>
    { rs with
      liveSubs := rs.liveSubs.filter (fun s => s.1 != e.subId)
      triggers := aerase automationId rs.triggers }

/-- Whether the per-kind strategy of `register` creates a subscription for
this automation (and under which trigger type), following the dispatch in
`TriggerRegistry.register` and the guards of each `registerXTrigger`:
missing/empty required fields, failed host bindings, non-existent watch paths
and not-yet-implemented kinds all register nothing. -/
def registersSub (env : TriggerEnv) (a : Automation) : Option TriggerType :=
  match a.triggerConfig with
  | .schedule c =>
    match c.cron with
    | none => none
    | some cr => if cr = "" then none else if env.cronOk cr then some .schedule else none
  | .hotkey c =>
    if c.accelerator = "" then none
    else if env.hotkeyBindOk c.accelerator then some .hotkey else none
  | .fileChange c =>
    if c.paths.isEmpty then none
    else if c.paths.any (fun p => env.pathExists p && env.watchOk p)
    then some .fileChange else none
  | .powerEvent c => if c.events.isEmpty then none else some .powerEvent
  | .appEvent c => if c.events.isEmpty then none else some .appEvent
  | .clipboard _ => some .clipboard
  | .folderAction c =>
    if c.folderPath = "" then none
    else if env.pathExists c.folderPath then
      (if env.watchOk c.folderPath then some .folderAction else none)
    else none
  | .manual => none
  | .webhook _ => none
  | .deepLink => none

/-- `register(automation)`: first unregisters any existing trigger for the
same automation id, then dispatches on the trigger kind; on success a fresh
subscription bundle is created and the table entry set. -/
def register (env : TriggerEnv) (a : Automation) (rs : RegistryState) :
    RegistryState :=
  let rs1 := unregister a.id rs
  match registersSub env a with
  | none => rs1
  | some ty =>
    { triggers := aset a.id ⟨a.id, ty, rs1.nextSubId⟩ rs1.triggers
      liveSubs := rs1.liveSubs ++ [(rs1.nextSubId, a.id)]
      nextSubId := rs1.nextSubId + 1 }

/-- `unregisterAll()`: calls `stop()` on every table entry and clears the
table. -/
def unregisterAll (rs : RegistryState) : RegistryState :=
  { triggers := []
    liveSubs := rs.liveSubs.filter
      (fun s => !(rs.triggers.any (fun kv => kv.2.subId == s.1)))
    nextSubId := rs.nextSubId }

/-- Number of live underlying subscription bundles owned by an automation. -/
def subCount (automationId : String) (rs : RegistryState) : Nat :=
  (rs.liveSubs.filter (fun p => p.2 == automationId)).length

/-- Registry well-formedness: subscription ids are distinct and below the
allocation counter, and every live subscription is the one referenced by the
trigger-table entry of its owning automation. -/
def RegInv (rs : RegistryState) : Prop :=
  (rs.liveSubs.map Prod.fst).Nodup ∧
  ∀ p ∈ rs.liveSubs,
    p.1 < rs.nextSubId ∧
    (alookup p.2 rs.triggers).map (fun e => e.subId) = some p.1

/-! ### Clipboard polling (registerClipboardTrigger) -/

/-- JavaScript `s.slice(0, n)`: the first `n` characters of `s`. -/
def sliceN (s : String) (n : Nat) : String :=
  ⟨s.data.take n⟩

/-- One tick of the clipboard polling interval.  `m` is the compiled pattern
(`none` when no pattern is configured or the regex failed to compile), `last`
the last observed clipboard content, `cur` the content read on this tick.
Returns the fired context (the ≤500-character content copy), if any, together
with the new last-observed content.  Mirrors the `setInterval` callback:
unchanged content returns early; otherwise the last-observed value is updated
before the pattern test. -/
def clipboardTick (m : Option (String → Bool)) (last cur : String) :
    Option String × String :=
  if cur = last then (none, last)
  else
    match m with
    | some f =>
      if f cur then (some (sliceN cur 500), cur) else (none, cur)
    | none => (some (sliceN cur 500), cur)

/-! ## Automation manager (automation-manager.ts)

The manager's mutable state — the `activeRuns` and `sessionToRun` maps, the
store, the trigger registry, the session-event listener registration, and the
cancellation requests issued to the session manager — is threaded explicitly.
`executeAutomation` is asynchronous in the source; it is split at its `await`
suspension points into `execPhase1` (the synchronous prefix up to and
including the admission check, run creation and the run-started broadcast)
and `execPhase2` (the continuation once `createSession` has resolved), with
`executeAutomation` their sequential, non-interleaved composition. -/

/-- An entry of the in-memory `activeRuns` table (`ActiveRun`).  The timeout
timer handle is modelled by the duration, in milliseconds, the timer was
armed with. -/
structure ActiveRun where
  runId : String
  automationId : String
  workspaceId : String
  workspaceRoot : String
  sessionId : String
  startTime : Nat
  timeoutTimer : Option Nat
deriving DecidableEq

/-- A broadcast to the renderer windows. -/
inductive BEvent
  | runStarted (runId : String)
  | runCompleted (runId : String)
  | runFailed (runId : String)
  | runCancelled (runId : String)
  | automationsChanged (workspaceRoot : String)
deriving DecidableEq

/-- The full state owned by the `AutomationManager`. -/
structure ManagerState where
  activeRuns : List (String × ActiveRun)
  sessionToRun : List (String × String)
  maxConcurrentRuns : Nat
  store : Store
  registry : RegistryState
  listenerAttached : Bool
  cancelRequests : List String
  events : List BEvent
deriving DecidableEq

/-- A resolved workspace (`getWorkspaceByNameOrId` result). -/
structure Workspace where
  rootPath : String
deriving DecidableEq

/-- The environment of one `executeAutomation` call: the workspace-resolution
result, the generated run id, the timestamps produced by `new Date()` /
`Date.now()`, and the outcomes of the awaited session-manager operations. -/
structure ExecEnv where
  workspace : Option Workspace
  newRunId : String
  nowStart : String
  sessionResult : Except String String
  startTime : Nat
  setSourcesResult : Except String Unit
  sendResult : Except String Unit
  nowFail : String

/-- `(automation.actionConfig.timeoutSeconds || 300) * 1000`: JavaScript `||`
treats both an absent field and `0` as falsy. -/
def timeoutMsOf (ac : ActionConfig) : Nat :=
  (match ac.timeoutSeconds with
   | some t => if t = 0 then 300 else t
   | none => 300) * 1000

/-- The `catch` block of `executeAutomation`: persists the run as `failure`
with the captured error, updates the automation aggregates, broadcasts, and
re-raises.  It does not touch the `activeRuns` or `sessionToRun` tables. -/
def execFailurePath (workspaceRoot automationId runId errorMessage nowFail : String)
    (s : ManagerState) : Except String AutomationRun × ManagerState :=
  let r := updateRun workspaceRoot runId
    { status := some .failure
      completedAt := some (some nowFail)
      sessionId := none
      summary := none
      error := some (some errorMessage) } s.store
  match r.1 with
  | some failedRun =>
    (.error errorMessage,
      { s with
        store := updateAutomationAfterRun workspaceRoot automationId failedRun nowFail r.2
        events := s.events ++ [.runFailed runId, .automationsChanged workspaceRoot] })
  | none => (.error errorMessage, { s with store := r.2 })

/-- Everything `executePhase1` must hand to the continuation. -/
structure PendingExec where
  workspaceRoot : String
  workspaceId : String
  automationId : String
  automation : Automation
  run : AutomationRun
deriving DecidableEq

/-- The synchronous prefix of `executeAutomation`, up to the suspension point
`await createSession`: workspace and automation resolution, the concurrency
admission check, `createRun`, and the `run_started` broadcast. -/
def execPhase1 (env : ExecEnv) (workspaceId automationId : String)
    (triggeredBy : TriggerType) (triggerContext : Option Ctx)
    (s : ManagerState) : Except String PendingExec × ManagerState :=
  match env.workspace with
  | none => (.error ("Workspace not found: " ++ workspaceId), s)
  | some ws =>
    match getAutomation ws.rootPath automationId s.store with
    | none => (.error ("Automation not found: " ++ automationId), s)
    | some automation =>
      if s.activeRuns.length ≥ s.maxConcurrentRuns then
        (.error ("Concurrency limit reached (" ++ toString s.maxConcurrentRuns
          ++ " max). Wait for a running automation to complete."), s)
      else
        let c := createRun ws.rootPath automationId triggeredBy triggerContext
          env.newRunId env.nowStart s.store
        (.ok
          { workspaceRoot := ws.rootPath
            workspaceId := workspaceId
            automationId := automationId
            automation := automation
            run := c.1 },
          { s with store := c.2, events := s.events ++ [.runStarted c.1.id] })

/-- The continuation of `executeAutomation` after `await createSession`
resolves: persist the `running` transition with the session id, insert the
run into the active-run and session-to-run tables with its armed timeout
timer, configure session sources if requested, send the prompt, and return
the updated run; any failure is routed through the `catch` block. -/
def execPhase2 (env : ExecEnv) (p : PendingExec) (s : ManagerState) :
    Except String AutomationRun × ManagerState :=
  match env.sessionResult with
  | .error e => execFailurePath p.workspaceRoot p.automationId p.run.id e env.nowFail s
  | .ok sessionId =>
    let r := updateRun p.workspaceRoot p.run.id
      { status := some .running
        completedAt := none
        sessionId := some (some sessionId)
        summary := none
        error := none } s.store
    match r.1 with
    | none =>
      execFailurePath p.workspaceRoot p.automationId p.run.id
        "Failed to update run record" env.nowFail { s with store := r.2 }
    | some updatedRun =>
      let activeRun : ActiveRun :=
        { runId := p.run.id
          automationId := p.automationId
          workspaceId := p.workspaceId
          workspaceRoot := p.workspaceRoot
          sessionId := sessionId
          startTime := env.startTime
          timeoutTimer := some (timeoutMsOf p.automation.actionConfig) }
      let s1 : ManagerState :=
        { s with
          store := r.2
          activeRuns := aset p.run.id activeRun s.activeRuns
          sessionToRun := aset sessionId p.run.id s.sessionToRun }
      match (if (p.automation.actionConfig.sourceSlugs.getD []).isEmpty
             then Except.ok () else env.setSourcesResult) with
      | .error e =>
        execFailurePath p.workspaceRoot p.automationId p.run.id e env.nowFail s1
      | .ok _ =>
        match env.sendResult with
        | .error e =>
          execFailurePath p.workspaceRoot p.automationId p.run.id e env.nowFail s1
        | .ok _ => (.ok updatedRun, s1)

/-- `executeAutomation(workspaceId, automationId, triggeredBy, triggerContext)`
as one sequential (non-interleaved) call: phase 1 followed immediately by
phase 2. -/
def executeAutomation (env : ExecEnv) (workspaceId automationId : String)
    (triggeredBy : TriggerType) (triggerContext : Option Ctx)
    (s : ManagerState) : Except String AutomationRun × ManagerState :=
  match execPhase1 env workspaceId automationId triggeredBy triggerContext s with
  | (.error e, s') => (.error e, s')
  | (.ok p, s') => execPhase2 env p s'

/-- `completeRun(runId, status, error?)`: no-op when the run is not in the
active table; otherwise persists the terminal record (`error || null` maps an
absent or empty error message to `null`), updates the automation aggregates,
broadcasts the matching terminal event and the changed list, and removes the
run from both in-memory tables (clearing its timeout timer). -/
def completeRun (runId : String) (status : AutomationRunStatus)
    (error : Option String) (now : String) (s : ManagerState) : ManagerState :=
  match alookup runId s.activeRuns with
  | none => s
  | some active =>
    let r := updateRun active.workspaceRoot runId
      { status := some status
        completedAt := some (some now)
        sessionId := none
        summary := none
        error := some
          (match error with
           | some e => if e = "" then none else some e
           | none => none) } s.store
    let next : Store × List BEvent :=
      match r.1 with
      | some updatedRun =>
        (updateAutomationAfterRun active.workspaceRoot active.automationId
          updatedRun now r.2,
         [(match status with
           | .success => BEvent.runCompleted runId
           | .cancelled => BEvent.runCancelled runId
           | _ => BEvent.runFailed runId),
          BEvent.automationsChanged active.workspaceRoot])
      | none => (r.2, [])
    { s with
      store := next.1
      events := s.events ++ next.2
      sessionToRun := aerase active.sessionId s.sessionToRun
      activeRuns := aerase runId s.activeRuns }

/-- A session event from the `SessionManager`. -/
inductive SessionEventKind
  | complete | error | other
deriving DecidableEq

/-- The payload of a session event. -/
structure SessionEvent where
  kind : SessionEventKind
  sessionId : Option String
  error : Option String
deriving DecidableEq

/-- `handleSessionEvent`: filters to complete/error events, routes through
the session-to-run index, ignores unknown work units, and finalizes the
owning run. -/
def handleSessionEvent (ev : SessionEvent) (now : String) (s : ManagerState) :
    ManagerState :=
  if ev.kind ≠ .complete ∧ ev.kind ≠ .error then s
  else
    match ev.sessionId with
    | none => s
    | some sid =>
      match alookup sid s.sessionToRun with
      | none => s
      | some runId =>
        match alookup runId s.activeRuns with
        | none => s
        | some _ =>
          match ev.kind with
          | .complete => completeRun runId .success none now s
          | .error => completeRun runId .failure ev.error now s
          | .other => s

/-- The bound session-event listener: events are delivered only while the
manager is attached to the session-manager notification stream. -/
def dispatchSessionEvent (ev : SessionEvent) (now : String) (s : ManagerState) :
    ManagerState :=
  if s.listenerAttached then handleSessionEvent ev now s else s

/-- `handleTimeout(runId)`: no-op when the run is no longer active; otherwise
best-effort requests cancellation of the session and finalizes the run as
`failure` with the fixed timed-out message. -/
def handleTimeout (runId : String) (now : String) (s : ManagerState) :
    ManagerState :=
  match alookup runId s.activeRuns with
  | none => s
  | some active =>
    completeRun runId .failure (some "Automation timed out") now
      { s with cancelRequests := s.cancelRequests ++ [active.sessionId] }

/-- `cancelRun(workspaceId, runId)`: `false` when the run is not active;
otherwise requests session cancellation and finalizes the run as
`cancelled`. -/
def cancelRun (_workspaceId runId : String) (now : String) (s : ManagerState) :
    Bool × ManagerState :=
  match alookup runId s.activeRuns with
  | none => (false, s)
  | some active =>
    (true,
      completeRun runId .cancelled none now
        { s with cancelRequests := s.cancelRequests ++ [active.sessionId] })

/-- The per-run loop body of `cleanup()`: each still-active run is persisted
as `cancelled` with the fixed shutdown message and its automation's
aggregates updated. -/
def cleanupRunsFold (now : String) :
    List (String × ActiveRun) → Store → Store
  | [], st => st
  | (runId, active) :: t, st =>
    let r := updateRun active.workspaceRoot runId
      { status := some .cancelled
        completedAt := some (some now)
        sessionId := none
        summary := none
        error := some (some "App shutting down") } st
    let st2 :=
      match r.1 with
      | some u => updateAutomationAfterRun active.workspaceRoot active.automationId u now r.2
      | none => r.2
    cleanupRunsFold now t st2

/-- `cleanup()`: unregisters every trigger, force-finalizes every active run
as `cancelled`, clears both in-memory tables and detaches the session-event
listener. -/
def cleanup (now : String) (s : ManagerState) : ManagerState :=
  { s with
    registry := unregisterAll s.registry
    store := cleanupRunsFold now s.activeRuns s.store
    activeRuns := []
    sessionToRun := []
    listenerAttached := false }

/-! ## Supporting lemmas -/

theorem alookup_mem {α β : Type} [DecidableEq α] {k : α} {v : β}
    {l : List (α × β)} (h : alookup k l = some v) : (k, v) ∈ l := by
  induction l with
  | nil => simp [alookup] at h
  | cons hd t ih =>
    by_cases hk : hd.1 = k
    · simp [alookup, hk] at h
      have hq : (k, v) = hd := by
        rw [← hk, ← h]
      rw [hq]
      exact List.mem_cons_self hd t
    · simp [alookup, hk] at h
      exact List.mem_cons_of_mem hd (ih h)

theorem mem_aset {α β : Type} [DecidableEq α] {k : α} {v : β}
    {q : α × β} {l : List (α × β)} (h : q ∈ aset k v l) :
    q = (k, v) ∨ q ∈ l := by
  induction l with
  | nil => simpa [aset] using h
  | cons hd t ih =>
    by_cases hk : hd.1 = k
    · simp [aset, hk] at h
      rcases h with h | h
      · exact Or.inl h
      · exact Or.inr (List.mem_cons_of_mem hd h)
    · simp [aset, hk] at h
      rcases h with h | h
      · exact Or.inr (by simp [h])
      · rcases ih h with h' | h'
        · exact Or.inl h'
        · exact Or.inr (List.mem_cons_of_mem hd h')

theorem alookup_aset_isSome {α β : Type} [DecidableEq α] (k k' : α) (v : β)
    (l : List (α × β)) (h : (alookup k l).isSome = true) :
    (alookup k (aset k' v l)).isSome = true := by
  by_cases hk : k = k'
  · subst hk
    rw [alookup_aset_self]
    rfl
  · rw [alookup_aset_ne v l hk]
    exact h

/-- Store well-formedness: each run file's `id` field equals the run id it is
keyed under (as enforced by `saveRun` writing `runs/{run.id}.json`). -/
def StoreWF (st : Store) : Prop :=
  ∀ q ∈ st.runs, q.2.id = q.1.2

theorem storeWF_saveRun {st : Store} (root : String) (run : AutomationRun)
    (h : StoreWF st) : StoreWF (saveRun root run st) := by
  intro q hq
  rcases mem_aset hq with h' | h'
  · subst h'
    rfl
  · exact h q h'

theorem storeWF_updateAutomationAfterRun {st : Store}
    (root automationId : String) (run : AutomationRun) (now : String)
    (h : StoreWF st) :
    StoreWF (updateAutomationAfterRun root automationId run now st) := by
  intro q hq
  rw [updateAutomationAfterRun_runs] at hq
  exact h q hq

theorem getRun_id_of_wf {st : Store} {root runId : String} {r : AutomationRun}
    (hwf : StoreWF st) (h : getRun root runId st = some r) : r.id = runId :=
  hwf (⟨(root, runId), r⟩ : (String × String) × AutomationRun) (alookup_mem h)

/-- A `Nodup` list of naturals whose elements are all equal has at most one
element. -/
theorem nodup_const_length_le_one (l : List Nat) (c : Nat)
    (hnd : l.Nodup) (hc : ∀ x ∈ l, x = c) : l.length ≤ 1 := by
  match l with
  | [] => simp
  | [x] => simp
  | x :: y :: t =>
    exfalso
    have hx : x = c := hc x (by simp)
    have hy : y = c := hc y (by simp)
    rw [List.nodup_cons] at hnd
    exact hnd.1 (by simp [hx, hy])

/-! ## Concrete sample data for witnesses and counterexamples -/

/-- An action policy with every optional field absent. -/
def acfg0 : ActionConfig :=
  { model := none
    permissionMode := none
    maxTurns := none
    timeoutSeconds := none
    sourceSlugs := none
    skillSlugs := none
    workingDirectory := none }

/-- A sample manual-trigger automation stored in workspace root `w`. -/
def autoA : Automation :=
  { id := "a1"
    name := "A"
    prompt := "do the thing"
    triggerConfig := .manual
    actionConfig := acfg0
    enabled := true
    lastRunAt := none
    nextRunAt := none
    createdAt := "T0"
    updatedAt := "T0"
    workspaceId := "w"
    runCount := 0
    lastStatus := none }

/-- A store holding just `autoA` in workspace `w`. -/
def store0 : Store :=
  { runs := []
    autos := [("w", [autoA])]
    runLog := [] }

/-- The empty trigger registry. -/
def reg0 : RegistryState :=
  { triggers := []
    liveSubs := []
    nextSubId := 0 }

/-- A freshly initialized manager over `store0`. -/
def mgr0 : ManagerState :=
  { activeRuns := []
    sessionToRun := []
    maxConcurrentRuns := 2
    store := store0
    registry := reg0
    listenerAttached := true
    cancelRequests := []
    events := [] }

/-- The resolved workspace `w`. -/
def wsW : Workspace := { rootPath := "w" }

/-- An execution environment in which every awaited operation succeeds. -/
def envOk (rid sid : String) : ExecEnv :=
  { workspace := some wsW
    newRunId := rid
    nowStart := "T1"
    sessionResult := .ok sid
    startTime := 1000
    setSourcesResult := .ok ()
    sendResult := .ok ()
    nowFail := "T2" }

/-- An execution environment in which session creation succeeds but message
delivery fails. -/
def envSendFail : ExecEnv :=
  { workspace := some wsW
    newRunId := "r1"
    nowStart := "T1"
    sessionResult := .ok "s1"
    startTime := 1000
    setSourcesResult := .ok ()
    sendResult := .error "send failed"
    nowFail := "T2" }

/-- An execution environment in which session creation itself fails. -/
def envSessFail : ExecEnv :=
  { workspace := some wsW
    newRunId := "r1"
    nowStart := "T1"
    sessionResult := .error "spawn failed"
    startTime := 1000
    setSourcesResult := .ok ()
    sendResult := .ok ()
    nowFail := "T2" }

/-- A stored pending sample run. -/
def runP : AutomationRun :=
  { id := "r0"
    automationId := "a1"
    status := .pending
    startedAt := "T0"
    completedAt := none
    sessionId := none
    summary := none
    error := none
    triggeredBy := .manual
    triggerContext := none }

/-- A store holding `autoA` and the pending run `runP`. -/
def storeR : Store :=
  { runs := [(("w", "r0"), runP)]
    autos := [("w", [autoA])]
    runLog := [] }

/-- Sample updates: mark success with a completion time. -/
def updSuccess : RunUpdates :=
  { status := some .success
    completedAt := some (some "T5")
    sessionId := none
    summary := none
    error := some none }

/-! ## Claim C10: updateRun frame conditions -/

/-- C10: for every workspace root, run id and update set, `updateRun` returns
`none` and writes nothing when no persisted run with that id exists; when the
run exists (stored under its own id), the returned and persisted run equals
the stored run with exactly the fields present in the updates replaced —
`status`, `completedAt`, `sessionId`, `summary`, `error` — while `id`,
`automationId`, `startedAt`, `triggeredBy`, `triggerContext` and every field
absent from the updates are unchanged, and every other stored run is left
untouched. -/
theorem claim_C10_updateRun_frame (root runId : String) (u : RunUpdates)
    (st : Store) :
    (getRun root runId st = none → updateRun root runId u st = (none, st)) ∧
    (∀ r, getRun root runId st = some r → r.id = runId →
      updateRun root runId u st
        = (some (applyRunUpdates r u), saveRun root (applyRunUpdates r u) st) ∧
      getRun root runId (updateRun root runId u st).2 = some (applyRunUpdates r u) ∧
      (applyRunUpdates r u).id = r.id ∧
      (applyRunUpdates r u).automationId = r.automationId ∧
      (applyRunUpdates r u).startedAt = r.startedAt ∧
      (applyRunUpdates r u).triggeredBy = r.triggeredBy ∧
      (applyRunUpdates r u).triggerContext = r.triggerContext ∧
      (∀ v, u.status = some v → (applyRunUpdates r u).status = v) ∧
      (u.status = none → (applyRunUpdates r u).status = r.status) ∧
      (∀ v, u.completedAt = some v → (applyRunUpdates r u).completedAt = v) ∧
      (u.completedAt = none → (applyRunUpdates r u).completedAt = r.completedAt) ∧
      (∀ v, u.sessionId = some v → (applyRunUpdates r u).sessionId = v) ∧
      (u.sessionId = none → (applyRunUpdates r u).sessionId = r.sessionId) ∧
      (∀ v, u.summary = some v → (applyRunUpdates r u).summary = v) ∧
      (u.summary = none → (applyRunUpdates r u).summary = r.summary) ∧
      (∀ v, u.error = some v → (applyRunUpdates r u).error = v) ∧
      (u.error = none → (applyRunUpdates r u).error = r.error) ∧
      (∀ k, k ≠ (root, runId) →
        alookup k (updateRun root runId u st).2.runs = alookup k st.runs)) := by
  constructor
  · intro h
    simp [updateRun, h]
  · intro r hr hid
    have hup : updateRun root runId u st
        = (some (applyRunUpdates r u), saveRun root (applyRunUpdates r u) st) := by
      simp [updateRun, hr]
    refine ⟨hup, ?_, rfl, rfl, rfl, rfl, rfl, ?_, ?_, ?_, ?_, ?_, ?_, ?_, ?_, ?_, ?_, ?_⟩
    · rw [hup]
      show getRun root runId (saveRun root (applyRunUpdates r u) st) = _
      unfold getRun saveRun
      have hkey : (root, (applyRunUpdates r u).id) = (root, runId) := by
        have : (applyRunUpdates r u).id = r.id := rfl
        rw [this, hid]
      simp only [hkey]
      exact alookup_aset_self _ _ _
    · intro v hv
      simp [applyRunUpdates, hv]
    · intro hv
      simp [applyRunUpdates, hv]
    · intro v hv
      simp [applyRunUpdates, hv]
    · intro hv
      simp [applyRunUpdates, hv]
    · intro v hv
      simp [applyRunUpdates, hv]
    · intro hv
      simp [applyRunUpdates, hv]
    · intro v hv
      simp [applyRunUpdates, hv]
    · intro hv
      simp [applyRunUpdates, hv]
    · intro v hv
      simp [applyRunUpdates, hv]
    · intro hv
      simp [applyRunUpdates, hv]
    · intro k hk
      rw [hup]
      show alookup k (saveRun root (applyRunUpdates r u) st).runs = _
      unfold saveRun
      have hkey : (root, (applyRunUpdates r u).id) = (root, runId) := by
        have : (applyRunUpdates r u).id = r.id := rfl
        rw [this, hid]
      simp only [hkey]
      exact alookup_aset_ne _ _ hk

/-- Witness for C10 at concrete inputs: a missing run id writes nothing, and
updating the stored pending run `runP` to success keeps its identity fields
while replacing the named ones. -/
theorem claim_C10_witness :
    updateRun "w" "missing" updSuccess storeR = (none, storeR) ∧
    (applyRunUpdates runP updSuccess).status = .success ∧
    (applyRunUpdates runP updSuccess).completedAt = some "T5" ∧
    (applyRunUpdates runP updSuccess).startedAt = runP.startedAt ∧
    getRun "w" "r0" (updateRun "w" "r0" updSuccess storeR).2
      = some (applyRunUpdates runP updSuccess) := by
  have h1 := (claim_C10_updateRun_frame "w" "missing" updSuccess storeR).1 (by decide)
  have h2 := (claim_C10_updateRun_frame "w" "r0" updSuccess storeR).2 runP
    (by decide) (by decide)
  obtain ⟨hup, hget, hi, hau, hst, htr, hcx, hs1, hs2, hc1, hc2, hd1, hd2,
    hm1, hm2, he1, he2, hfr⟩ := h2
  exact ⟨h1, hs1 .success rfl, hc1 (some "T5") rfl, hst, hget⟩

/-! ## Claim C6: updateAutomationAfterRun aggregate update -/

/-- C6: for every existing automation and every run handed to
`updateAutomationAfterRun`, the automation's aggregates are updated as:
`lastRunAt` becomes the run's `completedAt`, or its `startedAt` when
`completedAt` is absent; `runCount` is incremented by exactly one;
`lastStatus` becomes success/failure/running when the run's status is
respectively success/failure/running and is left unchanged when the run is
cancelled; `updatedAt` is bumped to the current time.  All other fields of
the automation, all other automations in the workspace and every other
workspace's config are unchanged. -/
theorem claim_C6_updateAutomationAfterRun (root automationId : String)
    (run : AutomationRun) (now : String) (st : Store)
    (pre : List Automation) (a : Automation) (post : List Automation) :
    alookup root st.autos = some (pre ++ a :: post) →
    (∀ b ∈ pre, b.id ≠ automationId) →
    a.id = automationId →
    alookup root (updateAutomationAfterRun root automationId run now st).autos
      = some (pre ++ applyAfterRun run now a :: post) ∧
    (applyAfterRun run now a).lastRunAt = some (run.completedAt.getD run.startedAt) ∧
    (applyAfterRun run now a).runCount = a.runCount + 1 ∧
    (applyAfterRun run now a).updatedAt = now ∧
    (run.status = .success → (applyAfterRun run now a).lastStatus = some .success) ∧
    (run.status = .failure → (applyAfterRun run now a).lastStatus = some .failure) ∧
    (run.status = .running → (applyAfterRun run now a).lastStatus = some .running) ∧
    (run.status = .cancelled → (applyAfterRun run now a).lastStatus = a.lastStatus) ∧
    (applyAfterRun run now a).id = a.id ∧
    (applyAfterRun run now a).name = a.name ∧
    (applyAfterRun run now a).prompt = a.prompt ∧
    (applyAfterRun run now a).triggerConfig = a.triggerConfig ∧
    (applyAfterRun run now a).actionConfig = a.actionConfig ∧
    (applyAfterRun run now a).enabled = a.enabled ∧
    (applyAfterRun run now a).nextRunAt = a.nextRunAt ∧
    (applyAfterRun run now a).createdAt = a.createdAt ∧
    (applyAfterRun run now a).workspaceId = a.workspaceId ∧
    (∀ root', root' ≠ root →
      alookup root' (updateAutomationAfterRun root automationId run now st).autos
        = alookup root' st.autos) := by
  intro hload hpre ha
  have hlist : loadAutomations root st = pre ++ a :: post := by
    unfold loadAutomations
    rw [hload]
    rfl
  have hany : (loadAutomations root st).any (fun b => b.id == automationId) = true := by
    rw [hlist]
    refine List.any_eq_true.mpr ⟨a, ?_, ?_⟩
    · exact List.mem_append_right pre (List.mem_cons_self a post)
    · simpa using ha
  have hfirst : updateFirst (fun b => b.id == automationId) (applyAfterRun run now)
      (pre ++ a :: post) = pre ++ applyAfterRun run now a :: post := by
    refine updateFirst_append _ _ pre a post ?_ (by simpa using ha)
    intro b hb
    simpa using hpre b hb
  have hupd : updateAutomationAfterRun root automationId run now st
      = saveAutomations root (pre ++ applyAfterRun run now a :: post) st := by
    unfold updateAutomationAfterRun
    rw [if_pos hany, hlist, hfirst]
  refine ⟨?_, rfl, rfl, rfl, ?_, ?_, ?_, ?_, rfl, rfl, rfl, rfl, rfl, rfl, rfl, rfl, rfl, ?_⟩
  · rw [hupd]
    unfold saveAutomations
    exact alookup_aset_self _ _ _
  · intro hs
    simp [applyAfterRun, hs]
  · intro hs
    simp [applyAfterRun, hs]
  · intro hs
    simp [applyAfterRun, hs]
  · intro hs
    simp [applyAfterRun, hs]
  · intro root' hr
    rw [hupd]
    unfold saveAutomations
    exact alookup_aset_ne _ _ hr

/-- A finalized sample run used to exercise the aggregate update. -/
def runDone : AutomationRun :=
  { id := "r0"
    automationId := "a1"
    status := .success
    startedAt := "T0"
    completedAt := some "T5"
    sessionId := some "s1"
    summary := none
    error := none
    triggeredBy := .manual
    triggerContext := none }

/-- Witness for C6 at concrete inputs: finalizing `runDone` against `autoA`
sets `lastRunAt` to the completion time, bumps `runCount` to one, records
`lastStatus = success` and leaves the trigger configuration alone. -/
theorem claim_C6_witness :
    alookup "w" (updateAutomationAfterRun "w" "a1" runDone "T6" store0).autos
      = some ([] ++ applyAfterRun runDone "T6" autoA :: []) ∧
    (applyAfterRun runDone "T6" autoA).lastRunAt = some "T5" ∧
    (applyAfterRun runDone "T6" autoA).runCount = 1 ∧
    (applyAfterRun runDone "T6" autoA).lastStatus = some .success ∧
    (applyAfterRun runDone "T6" autoA).triggerConfig = autoA.triggerConfig := by
  have h := claim_C6_updateAutomationAfterRun "w" "a1" runDone "T6" store0
    [] autoA [] (by decide) (by intro b hb; simp at hb) (by decide)
  obtain ⟨hload, hlr, hrc, hua, hsu, hfa, hru, hca, hid, hna, hpr, htc, hac,
    hen, hnx, hcr, hws, hfr⟩ := h
  exact ⟨hload, hlr, hrc, hsu rfl, htc⟩

/-! ## Claim C8: clipboard trigger firing condition -/

theorem sliceN_length_le (s : String) (n : Nat) : (sliceN s n).length ≤ n := by
  have h : (sliceN s n).length = (s.data.take n).length := rfl
  rw [h, List.length_take]
  exact Nat.min_le_left _ _

/-- C8: a clipboard poll fires exactly when the polled content differs from
the last observed content and either no pattern is configured or the content
matches it; unchanged content never fires; and a fired context carries the
content truncated to at most its first 500 characters. -/
theorem claim_C8_clipboard_fire (m : Option (String → Bool)) (last cur : String) :
    ((clipboardTick m last cur).1.isSome = true ↔
      (cur ≠ last ∧ ∀ f, m = some f → f cur = true)) ∧
    (clipboardTick m last last).1 = none ∧
    (∀ c, (clipboardTick m last cur).1 = some c →
      c = sliceN cur 500 ∧ c.length ≤ 500) := by
  refine ⟨?_, ?_, ?_⟩
  · by_cases hc : cur = last
    · simp [clipboardTick, hc]
    · cases m with
      | none => simp [clipboardTick, hc]
      | some f =>
        by_cases hf : f cur
        · simp [clipboardTick, hc, hf]
        · simp [clipboardTick, hc, hf]
  · simp [clipboardTick]
  · intro c hcres
    by_cases hc : cur = last
    · simp [clipboardTick, hc] at hcres
    · cases m with
      | none =>
        simp [clipboardTick, hc] at hcres
        exact ⟨hcres.symm, hcres ▸ sliceN_length_le cur 500⟩
      | some f =>
        by_cases hf : f cur
        · simp [clipboardTick, hc, hf] at hcres
          exact ⟨hcres.symm, hcres ▸ sliceN_length_le cur 500⟩
        · simp [clipboardTick, hc, hf] at hcres

/-- A concrete compiled clipboard pattern: content of length three. -/
def patLen3 : Option (String → Bool) := some (fun s => s.length == 3)

/-- Witness for C8 at concrete inputs: distinct matching content fires,
repeated identical content does not. -/
theorem claim_C8_witness :
    (clipboardTick patLen3 "old!" "abc").1.isSome = true ∧
    (clipboardTick patLen3 "old!" "old!").1 = none := by
  constructor
  · refine (claim_C8_clipboard_fire patLen3 "old!" "abc").1.mpr ⟨by decide, ?_⟩
    intro f hf
    have h : some (fun s : String => s.length == 3) = some f := hf
    injection h with h'
    rw [← h']
    decide
  · exact (claim_C8_clipboard_fire patLen3 "old!" "old!").2.1

/-! ## Claim C7: trigger registry replace-on-register -/

theorem regInv_unregister {rs : RegistryState} (automationId : String)
    (inv : RegInv rs) : RegInv (unregister automationId rs) := by
  unfold unregister
  cases h : alookup automationId rs.triggers with
  | none => exact inv
  | some e =>
    constructor
    · exact List.Nodup.sublist
        (List.Sublist.map Prod.fst (List.filter_sublist rs.liveSubs)) inv.1
    · intro p hp
      rw [List.mem_filter] at hp
      obtain ⟨hpmem, hpne⟩ := hp
      obtain ⟨hlt, htab⟩ := inv.2 p hpmem
      refine ⟨hlt, ?_⟩
      by_cases hid : p.2 = automationId
      · exfalso
        rw [hid, h] at htab
        simp at htab
        simp [htab] at hpne
      · rw [alookup_aerase_ne rs.triggers hid]
        exact htab

theorem unregister_no_live {rs : RegistryState} (automationId : String)
    (inv : RegInv rs) :
    ∀ p ∈ (unregister automationId rs).liveSubs, p.2 ≠ automationId := by
  unfold unregister
  cases h : alookup automationId rs.triggers with
  | none =>
    intro p hp hid
    have := (inv.2 p hp).2
    rw [hid, h] at this
    simp at this
  | some e =>
    intro p hp hid
    rw [List.mem_filter] at hp
    obtain ⟨hpmem, hpne⟩ := hp
    have := (inv.2 p hpmem).2
    rw [hid, h] at this
    simp at this
    simp [this] at hpne

theorem regInv_register {rs : RegistryState} (env : TriggerEnv) (a : Automation)
    (inv : RegInv rs) : RegInv (register env a rs) := by
  have inv1 : RegInv (unregister a.id rs) := regInv_unregister a.id inv
  have hno := unregister_no_live a.id inv
  unfold register
  cases hr : registersSub env a with
  | none => exact inv1
  | some ty =>
    set rs1 := unregister a.id rs with hrs1
    constructor
    · rw [List.map_append]
      rw [List.nodup_append]
      refine ⟨inv1.1, List.nodup_singleton _, ?_⟩
      intro x hx hx'
      simp at hx'
      rw [List.mem_map] at hx
      obtain ⟨p, hp, hpx⟩ := hx
      have := (inv1.2 p hp).1
      rw [hpx, hx'] at this
      exact Nat.lt_irrefl _ this
    · intro p hp
      rw [List.mem_append] at hp
      rcases hp with hp | hp
      · obtain ⟨hlt, htab⟩ := inv1.2 p hp
        refine ⟨Nat.lt_succ_of_lt hlt, ?_⟩
        rw [alookup_aset_ne _ _ (hno p hp)]
        exact htab
      · simp at hp
        rw [hp]
        refine ⟨Nat.lt_succ_self _, ?_⟩
        rw [alookup_aset_self]
        rfl

theorem regInv_subCount {rs : RegistryState} (inv : RegInv rs)
    (automationId : String) : subCount automationId rs ≤ 1 := by
  unfold subCount
  cases h : alookup automationId rs.triggers with
  | none =>
    have hnil : rs.liveSubs.filter (fun p => p.2 == automationId) = [] := by
      rw [List.filter_eq_nil_iff]
      intro p hp hmatch
      have := (inv.2 p hp).2
      simp at hmatch
      rw [hmatch, h] at this
      simp at this
    simp [hnil]
  | some e =>
    have hlen : (rs.liveSubs.filter (fun p => p.2 == automationId)).length
        = ((rs.liveSubs.filter (fun p => p.2 == automationId)).map Prod.fst).length := by
      rw [List.length_map]
    rw [hlen]
    refine nodup_const_length_le_one _ e.subId ?_ ?_
    · exact List.Nodup.sublist
        (List.Sublist.map Prod.fst (List.filter_sublist rs.liveSubs)) inv.1
    · intro x hx
      rw [List.mem_map] at hx
      obtain ⟨p, hp, hpx⟩ := hx
      rw [List.mem_filter] at hp
      obtain ⟨hpmem, hpid⟩ := hp
      have := (inv.2 p hpmem).2
      simp at hpid
      rw [hpid, h] at this
      simp at this
      rw [← hpx, this]

/-- C7: the trigger registry keeps at most one live subscription per
automation id at all times — registry well-formedness is preserved by
`register` and `unregister`, well-formedness bounds each automation's live
subscriptions by one (so after `register(A)` then `register(A')` for the
same id exactly one subscription can remain and a fire invokes the callback
at most once), and `unregister` is an idempotent no-op when no trigger is
registered for the id. -/
theorem claim_C7_registry_replace_on_register :
    (∀ (env : TriggerEnv) (a : Automation) (rs : RegistryState),
      RegInv rs → RegInv (register env a rs)) ∧
    (∀ (automationId : String) (rs : RegistryState),
      RegInv rs → RegInv (unregister automationId rs)) ∧
    (∀ (rs : RegistryState), RegInv rs →
      ∀ automationId, subCount automationId rs ≤ 1) ∧
    (∀ (env env' : TriggerEnv) (a a' : Automation) (rs : RegistryState),
      RegInv rs → a'.id = a.id →
      subCount a'.id (register env' a' (register env a rs)) ≤ 1) ∧
    (∀ (automationId : String) (rs : RegistryState),
      alookup automationId rs.triggers = none → unregister automationId rs = rs) := by
  refine ⟨?_, ?_, ?_, ?_, ?_⟩
  · intro env a rs inv
    exact regInv_register env a inv
  · intro automationId rs inv
    exact regInv_unregister automationId inv
  · intro rs inv automationId
    exact regInv_subCount inv automationId
  · intro env env' a a' rs inv _
    exact regInv_subCount (regInv_register env' a' (regInv_register env a inv)) a'.id
  · intro automationId rs h
    unfold unregister
    rw [h]

/-- A clipboard-trigger automation (its registration strategy always
subscribes). -/
def autoClip : Automation :=
  { id := "a2"
    name := "Clip"
    prompt := "watch clipboard"
    triggerConfig := .clipboard { pattern := none, pollIntervalMs := none }
    actionConfig := acfg0
    enabled := true
    lastRunAt := none
    nextRunAt := none
    createdAt := "T0"
    updatedAt := "T0"
    workspaceId := "w"
    runCount := 0
    lastStatus := none }

/-- A host environment for trigger registration in which every binding
succeeds. -/
def envTrig : TriggerEnv :=
  { cronOk := fun _ => true
    hotkeyBindOk := fun _ => true
    pathExists := fun _ => true
    watchOk := fun _ => true }

/-- Witness for C7 at concrete inputs: registering the clipboard automation
twice on the empty registry leaves at most one live subscription for its id,
and unregistering an absent id is a no-op. -/
theorem claim_C7_witness :
    subCount "a2" (register envTrig autoClip (register envTrig autoClip reg0)) ≤ 1 ∧
    unregister "zzz" reg0 = reg0 := by
  constructor
  · refine claim_C7_registry_replace_on_register.2.2.2.1 envTrig envTrig
      autoClip autoClip reg0 ?_ rfl
    constructor
    · simp [reg0]
    · intro p hp
      simp [reg0] at hp
  · exact claim_C7_registry_replace_on_register.2.2.2.2 "zzz" reg0 (by decide)

/-! ## Manager phase lemmas -/

theorem execFailurePath_snd_activeRuns (workspaceRoot automationId runId e now : String)
    (s : ManagerState) :
    (execFailurePath workspaceRoot automationId runId e now s).2.activeRuns
      = s.activeRuns := by
  unfold execFailurePath
  dsimp only
  split <;> rfl

theorem execFailurePath_snd_sessionToRun (workspaceRoot automationId runId e now : String)
    (s : ManagerState) :
    (execFailurePath workspaceRoot automationId runId e now s).2.sessionToRun
      = s.sessionToRun := by
  unfold execFailurePath
  dsimp only
  split <;> rfl

theorem execFailurePath_fst (workspaceRoot automationId runId e now : String)
    (s : ManagerState) :
    (execFailurePath workspaceRoot automationId runId e now s).1 = .error e := by
  unfold execFailurePath
  dsimp only
  split <;> rfl

theorem execPhase1_snd_activeRuns (env : ExecEnv) (workspaceId automationId : String)
    (triggeredBy : TriggerType) (triggerContext : Option Ctx) (s : ManagerState) :
    (execPhase1 env workspaceId automationId triggeredBy triggerContext s).2.activeRuns
      = s.activeRuns := by
  unfold execPhase1
  split
  · rfl
  · split
    · rfl
    · split
      · rfl
      · rfl

theorem execPhase1_ok_lt (env : ExecEnv) (workspaceId automationId : String)
    (triggeredBy : TriggerType) (triggerContext : Option Ctx) (s : ManagerState)
    (p : PendingExec)
    (h : (execPhase1 env workspaceId automationId triggeredBy triggerContext s).1 = .ok p) :
    s.activeRuns.length < s.maxConcurrentRuns := by
  unfold execPhase1 at h
  revert h
  split
  · intro h
    simp at h
  · split
    · intro h
      simp at h
    · split
      · intro h
        simp at h
      · intro _
        omega

theorem execPhase2_len_le (env : ExecEnv) (p : PendingExec) (s : ManagerState) :
    ((execPhase2 env p s).2.activeRuns).length ≤ s.activeRuns.length + 1 := by
  unfold execPhase2
  dsimp only
  split
  · rw [execFailurePath_snd_activeRuns]
    exact Nat.le_succ _
  · split
    · rw [execFailurePath_snd_activeRuns]
      exact Nat.le_succ _
    · split
      · rw [execFailurePath_snd_activeRuns]
        exact aset_length_le _ _ _
      · split
        · rw [execFailurePath_snd_activeRuns]
          exact aset_length_le _ _ _
        · exact aset_length_le _ _ _

/-! ## Claim C1: admission check precedes run creation -/

/-- C1: when the workspace and automation both resolve but the active-run
table already holds at least `maxConcurrentRuns` entries, `executeAutomation`
fails with the concurrency-limit error and returns the state completely
unchanged — no run record is created or persisted and no in-memory table is
touched, because the admission check is evaluated before `createRun`. -/
theorem claim_C1_admission_reject_no_trace (env : ExecEnv)
    (workspaceId automationId : String) (triggeredBy : TriggerType)
    (triggerContext : Option Ctx) (s : ManagerState) (ws : Workspace)
    (auto : Automation)
    (hws : env.workspace = some ws)
    (hauto : getAutomation ws.rootPath automationId s.store = some auto)
    (hcap : s.activeRuns.length ≥ s.maxConcurrentRuns) :
    executeAutomation env workspaceId automationId triggeredBy triggerContext s
      = (.error ("Concurrency limit reached (" ++ toString s.maxConcurrentRuns
          ++ " max). Wait for a running automation to complete."), s) := by
  have h1 : execPhase1 env workspaceId automationId triggeredBy triggerContext s
      = (.error ("Concurrency limit reached (" ++ toString s.maxConcurrentRuns
          ++ " max). Wait for a running automation to complete."), s) := by
    unfold execPhase1
    rw [hws]
    simp only [hauto]
    rw [if_pos hcap]
  unfold executeAutomation
  rw [h1]

/-- A manager whose concurrency budget is exhausted (zero slots). -/
def mgrCap0 : ManagerState := { mgr0 with maxConcurrentRuns := 0 }

/-- Witness for C1 at concrete inputs: with a zero concurrency budget the
call is rejected and the state, including the store, is returned intact. -/
theorem claim_C1_witness :
    executeAutomation (envOk "r1" "s1") "w" "a1" .manual none mgrCap0
      = (.error ("Concurrency limit reached (" ++ toString mgrCap0.maxConcurrentRuns
          ++ " max). Wait for a running automation to complete."), mgrCap0) :=
  claim_C1_admission_reject_no_trace (envOk "r1" "s1") "w" "a1" .manual none
    mgrCap0 wsW autoA rfl (by decide) (by decide)

/-! ## Claim C4: admission check and table insertion across the suspension
point -/

/-- One interleaving of two concurrent `executeAutomation` calls: both
synchronous prefixes (resolution, admission check, `createRun`) run before
either continuation resumes at the `await createSession` suspension point.
This is a legal schedule of the event loop because the admission check and
the active-run-table insertion are separated by the awaited session
creation. -/
def interleaveTwo (envA envB : ExecEnv) (workspaceId automationId : String)
    (s : ManagerState) : ManagerState :=
  match execPhase1 envA workspaceId automationId .manual none s with
  | (.error _, s1) => s1
  | (.ok pA, s1) =>
    match execPhase1 envB workspaceId automationId .manual none s1 with
    | (.error _, s2) => (execPhase2 envA pA s2).2
    | (.ok pB, s2) => (execPhase2 envB pB (execPhase2 envA pA s2).2).2

/-- A manager restricted to a single concurrent run. -/
def mgrMax1 : ManagerState := { mgr0 with maxConcurrentRuns := 1 }

/-- Counterexample to C4: with `maxConcurrentRuns = 1`, two concurrent
`executeAutomation` calls whose synchronous prefixes interleave before the
`await createSession` suspension point both pass the admission check, and
after both continuations resume the active-run table holds two runs —
exceeding the bound.  The check-then-insert sequence is not free of
suspension points: the awaited work-unit creation sits between them. -/
theorem claim_C4_counterexample :
    mgrMax1.maxConcurrentRuns = 1 ∧
    (interleaveTwo (envOk "r1" "s1") (envOk "r2" "s2") "w" "a1" mgrMax1).activeRuns.length
      = 2 := by
  constructor
  · rfl
  · rfl

/-- C4 (amended): a single `executeAutomation` call, with no interleaving
between its admission check and its table insertion, never raises the number
of active runs above `maxConcurrentRuns` (unless the table already exceeded
the bound, it stays within `max` of the two); the original claim's global
bound under arbitrary interleavings fails because `await createSession`
suspends between the check and the insertion. -/
theorem claim_C4_amended_single_call_bound (env : ExecEnv)
    (workspaceId automationId : String) (triggeredBy : TriggerType)
    (triggerContext : Option Ctx) (s : ManagerState) :
    ((executeAutomation env workspaceId automationId triggeredBy triggerContext s).2.activeRuns).length
      ≤ max s.activeRuns.length s.maxConcurrentRuns := by
  have hfr := execPhase1_snd_activeRuns env workspaceId automationId triggeredBy
    triggerContext s
  unfold executeAutomation
  cases hE : execPhase1 env workspaceId automationId triggeredBy triggerContext s with
  | mk r1 s' =>
    rw [hE] at hfr
    cases r1 with
    | error e =>
      dsimp only
      rw [hfr]
      exact Nat.le_max_left _ _
    | ok p =>
      dsimp only
      have hlt : s.activeRuns.length < s.maxConcurrentRuns := by
        refine execPhase1_ok_lt env workspaceId automationId triggeredBy
          triggerContext s p ?_
        rw [hE]
      have hle := execPhase2_len_le env p s'
      rw [hfr] at hle
      exact Nat.le_trans hle
        (Nat.le_trans (Nat.succ_le_of_lt hlt) (Nat.le_max_right _ _))

/-! ## Explicit execution results -/

/-- The pending run created by phase 1 (`createRun`'s record). -/
def pendingRunOf (env : ExecEnv) (automationId : String)
    (triggeredBy : TriggerType) (triggerContext : Option Ctx) : AutomationRun :=
  { id := env.newRunId
    automationId := automationId
    status := .pending
    startedAt := env.nowStart
    completedAt := none
    sessionId := none
    summary := none
    error := none
    triggeredBy := triggeredBy
    triggerContext := triggerContext }

/-- The run as persisted by the `running` transition. -/
def runningRunOf (env : ExecEnv) (automationId : String)
    (triggeredBy : TriggerType) (triggerContext : Option Ctx)
    (sessionId : String) : AutomationRun :=
  { pendingRunOf env automationId triggeredBy triggerContext with
    status := .running
    sessionId := some sessionId }

/-- A run finalized as `failure` with an error message at time `now`. -/
def failedRunOf (base : AutomationRun) (e now : String) : AutomationRun :=
  { base with status := .failure, completedAt := some now, error := some e }

/-- The `ActiveRun` entry inserted on the success path. -/
def activeRunOf (env : ExecEnv) (workspaceId automationId workspaceRoot sessionId : String)
    (auto : Automation) : ActiveRun :=
  { runId := env.newRunId
    automationId := automationId
    workspaceId := workspaceId
    workspaceRoot := workspaceRoot
    sessionId := sessionId
    startTime := env.startTime
    timeoutTimer := some (timeoutMsOf auto.actionConfig) }

/-- The manager state after a fully successful `executeAutomation` call. -/
def execSuccessState (env : ExecEnv) (workspaceId automationId : String)
    (triggeredBy : TriggerType) (triggerContext : Option Ctx)
    (s : ManagerState) (workspaceRoot sessionId : String)
    (auto : Automation) : ManagerState :=
  { s with
    store := saveRun workspaceRoot
      (runningRunOf env automationId triggeredBy triggerContext sessionId)
      (saveRun workspaceRoot (pendingRunOf env automationId triggeredBy triggerContext)
        s.store)
    activeRuns := aset env.newRunId
      (activeRunOf env workspaceId automationId workspaceRoot sessionId auto)
      s.activeRuns
    sessionToRun := aset sessionId env.newRunId s.sessionToRun
    events := s.events ++ [.runStarted env.newRunId] }

theorem execPhase1_ok_eq (env : ExecEnv) (workspaceId automationId : String)
    (triggeredBy : TriggerType) (triggerContext : Option Ctx) (s : ManagerState)
    (ws : Workspace) (auto : Automation)
    (hws : env.workspace = some ws)
    (hauto : getAutomation ws.rootPath automationId s.store = some auto)
    (hcap : s.activeRuns.length < s.maxConcurrentRuns) :
    execPhase1 env workspaceId automationId triggeredBy triggerContext s
      = (.ok
          { workspaceRoot := ws.rootPath
            workspaceId := workspaceId
            automationId := automationId
            automation := auto
            run := pendingRunOf env automationId triggeredBy triggerContext },
         { s with
           store := saveRun ws.rootPath
             (pendingRunOf env automationId triggeredBy triggerContext) s.store
           events := s.events ++ [.runStarted env.newRunId] }) := by
  unfold execPhase1
  rw [hws]
  simp only [hauto]
  rw [if_neg (Nat.not_le.mpr hcap)]
  unfold createRun pendingRunOf
  rfl

theorem getRun_after_save_pending (env : ExecEnv) (automationId : String)
    (triggeredBy : TriggerType) (triggerContext : Option Ctx)
    (workspaceRoot : String) (st : Store) :
    getRun workspaceRoot (pendingRunOf env automationId triggeredBy triggerContext).id
      (saveRun workspaceRoot (pendingRunOf env automationId triggeredBy triggerContext) st)
      = some (pendingRunOf env automationId triggeredBy triggerContext) := by
  unfold getRun saveRun
  exact alookup_aset_self _ _ _

theorem exec_success_eq (env : ExecEnv) (workspaceId automationId : String)
    (triggeredBy : TriggerType) (triggerContext : Option Ctx) (s : ManagerState)
    (ws : Workspace) (auto : Automation) (sessionId : String)
    (hws : env.workspace = some ws)
    (hauto : getAutomation ws.rootPath automationId s.store = some auto)
    (hcap : s.activeRuns.length < s.maxConcurrentRuns)
    (hsess : env.sessionResult = .ok sessionId)
    (hsrc : env.setSourcesResult = .ok ())
    (hsend : env.sendResult = .ok ()) :
    executeAutomation env workspaceId automationId triggeredBy triggerContext s
      = (.ok (runningRunOf env automationId triggeredBy triggerContext sessionId),
         execSuccessState env workspaceId automationId triggeredBy triggerContext s
           ws.rootPath sessionId auto) := by
  unfold executeAutomation
  rw [execPhase1_ok_eq env workspaceId automationId triggeredBy triggerContext s
    ws auto hws hauto hcap]
  dsimp only
  unfold execPhase2
  rw [hsess]
  dsimp only
  unfold updateRun
  rw [getRun_after_save_pending]
  dsimp only
  rw [hsrc, ite_self]
  dsimp only
  rw [hsend]
  rfl

theorem exec_sessfail_eq (env : ExecEnv) (workspaceId automationId : String)
    (triggeredBy : TriggerType) (triggerContext : Option Ctx) (s : ManagerState)
    (ws : Workspace) (auto : Automation) (e : String)
    (hws : env.workspace = some ws)
    (hauto : getAutomation ws.rootPath automationId s.store = some auto)
    (hcap : s.activeRuns.length < s.maxConcurrentRuns)
    (hsess : env.sessionResult = .error e) :
    executeAutomation env workspaceId automationId triggeredBy triggerContext s
      = (.error e,
         { s with
           store := updateAutomationAfterRun ws.rootPath automationId
             (failedRunOf (pendingRunOf env automationId triggeredBy triggerContext)
               e env.nowFail) env.nowFail
             (saveRun ws.rootPath
               (failedRunOf (pendingRunOf env automationId triggeredBy triggerContext)
                 e env.nowFail)
               (saveRun ws.rootPath
                 (pendingRunOf env automationId triggeredBy triggerContext) s.store))
           events := (s.events ++ [.runStarted env.newRunId])
             ++ [.runFailed env.newRunId, .automationsChanged ws.rootPath] }) := by
  unfold executeAutomation
  rw [execPhase1_ok_eq env workspaceId automationId triggeredBy triggerContext s
    ws auto hws hauto hcap]
  dsimp only
  unfold execPhase2
  rw [hsess]
  dsimp only
  unfold execFailurePath
  dsimp only
  unfold updateRun
  rw [getRun_after_save_pending]
  rfl

theorem exec_sendfail_eq (env : ExecEnv) (workspaceId automationId : String)
    (triggeredBy : TriggerType) (triggerContext : Option Ctx) (s : ManagerState)
    (ws : Workspace) (auto : Automation) (sessionId e : String)
    (hws : env.workspace = some ws)
    (hauto : getAutomation ws.rootPath automationId s.store = some auto)
    (hcap : s.activeRuns.length < s.maxConcurrentRuns)
    (hsess : env.sessionResult = .ok sessionId)
    (hsrc : env.setSourcesResult = .ok ())
    (hsend : env.sendResult = .error e) :
    executeAutomation env workspaceId automationId triggeredBy triggerContext s
      = (.error e,
         { s with
           store := updateAutomationAfterRun ws.rootPath automationId
             (failedRunOf
               (runningRunOf env automationId triggeredBy triggerContext sessionId)
               e env.nowFail) env.nowFail
             (saveRun ws.rootPath
               (failedRunOf
                 (runningRunOf env automationId triggeredBy triggerContext sessionId)
                 e env.nowFail)
               (saveRun ws.rootPath
                 (runningRunOf env automationId triggeredBy triggerContext sessionId)
                 (saveRun ws.rootPath
                   (pendingRunOf env automationId triggeredBy triggerContext) s.store)))
           activeRuns := aset env.newRunId
             (activeRunOf env workspaceId automationId ws.rootPath sessionId auto)
             s.activeRuns
           sessionToRun := aset sessionId env.newRunId s.sessionToRun
           events := (s.events ++ [.runStarted env.newRunId])
             ++ [.runFailed env.newRunId, .automationsChanged ws.rootPath] }) := by
  unfold executeAutomation
  rw [execPhase1_ok_eq env workspaceId automationId triggeredBy triggerContext s
    ws auto hws hauto hcap]
  dsimp only
  unfold execPhase2
  rw [hsess]
  dsimp only
  unfold updateRun
  rw [getRun_after_save_pending]
  dsimp only
  rw [hsrc, ite_self]
  dsimp only
  rw [hsend]
  dsimp only
  unfold execFailurePath
  dsimp only
  unfold updateRun
  have hconv : applyRunUpdates (pendingRunOf env automationId triggeredBy triggerContext)
      { status := some AutomationRunStatus.running
        completedAt := none
        sessionId := some (some sessionId)
        summary := none
        error := none }
      = runningRunOf env automationId triggeredBy triggerContext sessionId := rfl
  rw [hconv]
  have hrun2 : getRun ws.rootPath
      (pendingRunOf env automationId triggeredBy triggerContext).id
      (saveRun ws.rootPath
        (runningRunOf env automationId triggeredBy triggerContext sessionId)
        (saveRun ws.rootPath (pendingRunOf env automationId triggeredBy triggerContext)
          s.store))
      = some (runningRunOf env automationId triggeredBy triggerContext sessionId) := by
    unfold getRun saveRun
    exact alookup_aset_self _ _ _
  rw [hrun2]
  rfl

/-! ## Claim C3: the pending-to-running transition and setup failures -/

/-- Counterexample to C3: a concrete call on which session creation succeeds
and message delivery then fails.  The write log shows the run record was
persisted with status `running` before the failure — on this setup-failure
path the run transitions pending, running, failure, not pending to failure
directly. -/
theorem claim_C3_counterexample :
    (executeAutomation envSendFail "w" "a1" TriggerType.manual none mgr0).1
      = .error "send failed" ∧
    ((executeAutomation envSendFail "w" "a1" TriggerType.manual none mgr0).2.store.runLog.map
        (fun q => q.2.status)) = [.pending, .running, .failure] ∧
    ((getRun "w" "r1"
        (executeAutomation envSendFail "w" "a1" TriggerType.manual none mgr0).2.store).map
        (fun r => r.status)) = some .failure :=
  ⟨rfl, rfl, rfl⟩

/-- C3 (amended): the run is persisted as `running` on successful work-unit
creation alone, before message delivery.  When work-unit creation itself
fails, the run transitions pending to failure directly and is never
persisted with status `running`; when message delivery fails after the
work unit was created, the run has already been persisted as `running` and
is then finalized as `failure` (its persisted statuses are pending, running,
failure in order). -/
theorem claim_C3_amended_running_transition :
    (∀ (env : ExecEnv) (workspaceId automationId : String)
       (triggeredBy : TriggerType) (triggerContext : Option Ctx)
       (s : ManagerState) (ws : Workspace) (auto : Automation) (e : String),
      env.workspace = some ws →
      getAutomation ws.rootPath automationId s.store = some auto →
      s.activeRuns.length < s.maxConcurrentRuns →
      env.sessionResult = .error e →
      (executeAutomation env workspaceId automationId triggeredBy triggerContext s).1
          = .error e ∧
      (((executeAutomation env workspaceId automationId triggeredBy triggerContext
          s).2.store.runLog.drop s.store.runLog.length).map (fun q => q.2.status))
        = [.pending, .failure]) ∧
    (∀ (env : ExecEnv) (workspaceId automationId : String)
       (triggeredBy : TriggerType) (triggerContext : Option Ctx)
       (s : ManagerState) (ws : Workspace) (auto : Automation) (sessionId e : String),
      env.workspace = some ws →
      getAutomation ws.rootPath automationId s.store = some auto →
      s.activeRuns.length < s.maxConcurrentRuns →
      env.sessionResult = .ok sessionId →
      env.setSourcesResult = .ok () →
      env.sendResult = .error e →
      (executeAutomation env workspaceId automationId triggeredBy triggerContext s).1
          = .error e ∧
      (((executeAutomation env workspaceId automationId triggeredBy triggerContext
          s).2.store.runLog.drop s.store.runLog.length).map (fun q => q.2.status))
        = [.pending, .running, .failure] ∧
      ((getRun ws.rootPath env.newRunId
          (executeAutomation env workspaceId automationId triggeredBy triggerContext
            s).2.store).map (fun r => r.status)) = some .failure) := by
  constructor
  · intro env workspaceId automationId triggeredBy triggerContext s ws auto e
      hws hauto hcap hsess
    rw [exec_sessfail_eq env workspaceId automationId triggeredBy triggerContext s
      ws auto e hws hauto hcap hsess]
    refine ⟨rfl, ?_⟩
    dsimp only
    rw [updateAutomationAfterRun_runLog]
    show (((s.store.runLog
        ++ [(ws.rootPath, pendingRunOf env automationId triggeredBy triggerContext)])
        ++ [(ws.rootPath, failedRunOf
              (pendingRunOf env automationId triggeredBy triggerContext) e env.nowFail)]).drop
        s.store.runLog.length).map (fun q => q.2.status) = _
    rw [List.append_assoc, List.drop_left]
    rfl
  · intro env workspaceId automationId triggeredBy triggerContext s ws auto
      sessionId e hws hauto hcap hsess hsrc hsend
    rw [exec_sendfail_eq env workspaceId automationId triggeredBy triggerContext s
      ws auto sessionId e hws hauto hcap hsess hsrc hsend]
    refine ⟨rfl, ?_, ?_⟩
    · dsimp only
      rw [updateAutomationAfterRun_runLog]
      show ((((s.store.runLog
          ++ [(ws.rootPath, pendingRunOf env automationId triggeredBy triggerContext)])
          ++ [(ws.rootPath, runningRunOf env automationId triggeredBy triggerContext sessionId)])
          ++ [(ws.rootPath, failedRunOf
                (runningRunOf env automationId triggeredBy triggerContext sessionId)
                e env.nowFail)]).drop
          s.store.runLog.length).map (fun q => q.2.status) = _
      rw [List.append_assoc, List.append_assoc, List.drop_left]
      rfl
    · dsimp only
      rw [getRun_updateAutomationAfterRun]
      have hg : getRun ws.rootPath env.newRunId
          (saveRun ws.rootPath
            (failedRunOf (runningRunOf env automationId triggeredBy triggerContext sessionId)
              e env.nowFail)
            (saveRun ws.rootPath
              (runningRunOf env automationId triggeredBy triggerContext sessionId)
              (saveRun ws.rootPath
                (pendingRunOf env automationId triggeredBy triggerContext) s.store)))
          = some (failedRunOf
              (runningRunOf env automationId triggeredBy triggerContext sessionId)
              e env.nowFail) := by
        unfold getRun saveRun
        exact alookup_aset_self _ _ _
      rw [hg]
      rfl

/-- Witness for the amended C3 at concrete inputs: a failed session creation
leaves only pending and failure writes, and a failed message delivery leaves
pending, running and failure writes. -/
theorem claim_C3_witness :
    ((executeAutomation envSessFail "w" "a1" TriggerType.manual none mgr0).1
        = .error "spawn failed" ∧
     (((executeAutomation envSessFail "w" "a1" TriggerType.manual none
          mgr0).2.store.runLog.drop mgr0.store.runLog.length).map (fun q => q.2.status))
        = [.pending, .failure]) ∧
    (((executeAutomation envSendFail "w" "a1" TriggerType.manual none
          mgr0).2.store.runLog.drop mgr0.store.runLog.length).map (fun q => q.2.status))
        = [.pending, .running, .failure] := by
  constructor
  · exact claim_C3_amended_running_transition.1 envSessFail "w" "a1" .manual none
      mgr0 wsW autoA "spawn failed" rfl (by decide) (by decide) rfl
  · exact (claim_C3_amended_running_transition.2 envSendFail "w" "a1" .manual none
      mgr0 wsW autoA "s1" "send failed" rfl (by decide) (by decide) rfl rfl rfl).2.1

/-! ## Claim C2: terminal-state immutability -/

/-- C2 fails on the code: when message delivery fails after the work unit
was created, the `catch` block of `executeAutomation` persists the terminal
`failure` record but leaves the run in the active-run and session-to-run
tables with its timeout timer armed.  A later `cancelRun` for that run—
which the claim requires to be a no-op—still finds the active entry, returns
`true`, re-finalizes the run, and transitions the persisted record out of
its terminal state (`failure` to `cancelled`), incrementing the owning
automation's `runCount` a second time.  This theorem evaluates the code at
that failing input. -/
theorem claim_C2_terminal_state_mutated :
    ((getRun "w" "r1"
        (executeAutomation envSendFail "w" "a1" TriggerType.manual none mgr0).2.store).map
        (fun r => r.status)) = some .failure ∧
    (alookup "r1"
        (executeAutomation envSendFail "w" "a1" TriggerType.manual none mgr0).2.activeRuns).isSome
      = true ∧
    (cancelRun "w" "r1" "T3"
        (executeAutomation envSendFail "w" "a1" TriggerType.manual none mgr0).2).1
      = true ∧
    ((getRun "w" "r1"
        (cancelRun "w" "r1" "T3"
          (executeAutomation envSendFail "w" "a1" TriggerType.manual none mgr0).2).2.store).map
        (fun r => r.status)) = some .cancelled ∧
    ((getAutomation "w" "a1"
        (cancelRun "w" "r1" "T3"
          (executeAutomation envSendFail "w" "a1" TriggerType.manual none mgr0).2).2.store).map
        (fun a => a.runCount)) = some 2 :=
  ⟨rfl, rfl, rfl, rfl, rfl⟩

/-! ## Claim C5: timeout registration and firing -/

theorem completeRun_found (runId : String) (status : AutomationRunStatus)
    (error : Option String) (now : String) (s : ManagerState)
    (active : ActiveRun) (r0 : AutomationRun)
    (hact : alookup runId s.activeRuns = some active)
    (hrun : getRun active.workspaceRoot runId s.store = some r0) :
    completeRun runId status error now s
      = { s with
          store := updateAutomationAfterRun active.workspaceRoot active.automationId
            (applyRunUpdates r0
              { status := some status
                completedAt := some (some now)
                sessionId := none
                summary := none
                error := some (match error with
                  | some e => if e = "" then none else some e
                  | none => none) }) now
            (saveRun active.workspaceRoot
              (applyRunUpdates r0
                { status := some status
                  completedAt := some (some now)
                  sessionId := none
                  summary := none
                  error := some (match error with
                    | some e => if e = "" then none else some e
                    | none => none) }) s.store)
          events := s.events
            ++ [(match status with
                 | .success => BEvent.runCompleted runId
                 | .cancelled => BEvent.runCancelled runId
                 | _ => BEvent.runFailed runId),
                BEvent.automationsChanged active.workspaceRoot]
          sessionToRun := aerase active.sessionId s.sessionToRun
          activeRuns := aerase runId s.activeRuns } := by
  unfold completeRun
  rw [hact]
  dsimp only
  unfold updateRun
  rw [hrun]

theorem handleTimeout_fires (s : ManagerState) (runId now : String)
    (active : ActiveRun) (r0 : AutomationRun)
    (hact : alookup runId s.activeRuns = some active)
    (hrun : getRun active.workspaceRoot runId s.store = some r0)
    (hid : r0.id = runId) :
    ((getRun active.workspaceRoot runId (handleTimeout runId now s).store).map
        (fun r => r.status)) = some .failure ∧
    ((getRun active.workspaceRoot runId (handleTimeout runId now s).store).map
        (fun r => r.error)) = some (some "Automation timed out") ∧
    alookup runId (handleTimeout runId now s).activeRuns = none ∧
    active.sessionId ∈ (handleTimeout runId now s).cancelRequests := by
  have hstep : handleTimeout runId now s
      = completeRun runId .failure (some "Automation timed out") now
          { s with cancelRequests := s.cancelRequests ++ [active.sessionId] } := by
    unfold handleTimeout
    rw [hact]
  have hact2 : alookup runId
      ({ s with cancelRequests := s.cancelRequests ++ [active.sessionId] } :
        ManagerState).activeRuns = some active := hact
  have hrun2 : getRun active.workspaceRoot runId
      ({ s with cancelRequests := s.cancelRequests ++ [active.sessionId] } :
        ManagerState).store = some r0 := hrun
  rw [hstep, completeRun_found runId .failure (some "Automation timed out") now
    _ active r0 hact2 hrun2]
  dsimp only
  have hFRid : (applyRunUpdates r0
      { status := some AutomationRunStatus.failure
        completedAt := some (some now)
        sessionId := none
        summary := none
        error := some (if ("Automation timed out" : String) = ""
          then none else some "Automation timed out") }).id = runId := hid
  have hgr : getRun active.workspaceRoot runId
      (saveRun active.workspaceRoot
        (applyRunUpdates r0
          { status := some AutomationRunStatus.failure
            completedAt := some (some now)
            sessionId := none
            summary := none
            error := some (if ("Automation timed out" : String) = ""
              then none else some "Automation timed out") }) s.store)
      = some (applyRunUpdates r0
          { status := some AutomationRunStatus.failure
            completedAt := some (some now)
            sessionId := none
            summary := none
            error := some (if ("Automation timed out" : String) = ""
              then none else some "Automation timed out") }) := by
    unfold getRun saveRun
    rw [show ((active.workspaceRoot, (applyRunUpdates r0
        { status := some AutomationRunStatus.failure
          completedAt := some (some now)
          sessionId := none
          summary := none
          error := some (if ("Automation timed out" : String) = ""
            then none else some "Automation timed out") }).id) : String × String)
      = (active.workspaceRoot, runId) from by rw [hFRid]]
    exact alookup_aset_self _ _ _
  refine ⟨?_, ?_, ?_, ?_⟩
  · rw [getRun_updateAutomationAfterRun, hgr]
    rfl
  · rw [getRun_updateAutomationAfterRun, hgr]
    show some (if ("Automation timed out" : String) = ""
      then none else some "Automation timed out") = _
    rw [if_neg (by decide : ¬("Automation timed out" : String) = "")]
  · exact alookup_aerase_self _ _
  · exact List.mem_append_right _ (by simp)

/-- C5: on the success path of `executeAutomation` the tracked run's timeout
timer is armed for `(actionConfig.timeoutSeconds || 300) * 1000` milliseconds
(JavaScript `||`: absent or zero both fall back to 300 seconds); when the
timer fires while the run is still active, cancellation of the session is
requested best-effort, and the run is finalized as `failure` with the fixed
message "Automation timed out", after which the active-run table no longer
contains it. -/
theorem claim_C5_timeout_registration_and_firing (env : ExecEnv)
    (workspaceId automationId : String) (triggeredBy : TriggerType)
    (triggerContext : Option Ctx) (s : ManagerState) (ws : Workspace)
    (auto : Automation) (sessionId now2 : String)
    (hws : env.workspace = some ws)
    (hauto : getAutomation ws.rootPath automationId s.store = some auto)
    (hcap : s.activeRuns.length < s.maxConcurrentRuns)
    (hsess : env.sessionResult = .ok sessionId)
    (hsrc : env.setSourcesResult = .ok ())
    (hsend : env.sendResult = .ok ()) :
    ((alookup env.newRunId
        (executeAutomation env workspaceId automationId triggeredBy triggerContext
          s).2.activeRuns).map (fun a => a.timeoutTimer))
      = some (some ((match auto.actionConfig.timeoutSeconds with
          | some t => if t = 0 then 300 else t
          | none => 300) * 1000)) ∧
    ((getRun ws.rootPath env.newRunId
        (handleTimeout env.newRunId now2
          (executeAutomation env workspaceId automationId triggeredBy triggerContext
            s).2).store).map (fun r => r.status)) = some .failure ∧
    ((getRun ws.rootPath env.newRunId
        (handleTimeout env.newRunId now2
          (executeAutomation env workspaceId automationId triggeredBy triggerContext
            s).2).store).map (fun r => r.error)) = some (some "Automation timed out") ∧
    alookup env.newRunId
        (handleTimeout env.newRunId now2
          (executeAutomation env workspaceId automationId triggeredBy triggerContext
            s).2).activeRuns = none ∧
    sessionId ∈ (handleTimeout env.newRunId now2
        (executeAutomation env workspaceId automationId triggeredBy triggerContext
          s).2).cancelRequests := by
  have hexec := exec_success_eq env workspaceId automationId triggeredBy
    triggerContext s ws auto sessionId hws hauto hcap hsess hsrc hsend
  have hact : alookup env.newRunId
      (executeAutomation env workspaceId automationId triggeredBy triggerContext
        s).2.activeRuns
      = some (activeRunOf env workspaceId automationId ws.rootPath sessionId auto) := by
    rw [hexec]
    unfold execSuccessState
    dsimp only
    exact alookup_aset_self _ _ _
  have hrun : getRun (activeRunOf env workspaceId automationId ws.rootPath sessionId
      auto).workspaceRoot env.newRunId
      (executeAutomation env workspaceId automationId triggeredBy triggerContext
        s).2.store
      = some (runningRunOf env automationId triggeredBy triggerContext sessionId) := by
    rw [hexec]
    unfold execSuccessState
    dsimp only
    show getRun ws.rootPath env.newRunId _ = _
    unfold getRun saveRun
    exact alookup_aset_self _ _ _
  have h := handleTimeout_fires
    (executeAutomation env workspaceId automationId triggeredBy triggerContext s).2
    env.newRunId now2
    (activeRunOf env workspaceId automationId ws.rootPath sessionId auto)
    (runningRunOf env automationId triggeredBy triggerContext sessionId)
    hact hrun rfl
  refine ⟨?_, h.1, h.2.1, h.2.2.1, h.2.2.2⟩
  rw [hact]
  rfl

/-- Witness for C5 at concrete inputs: the default timer of 300000 ms is
armed for `autoA`, and firing the timeout finalizes run `r1` as a timed-out
failure no longer present in the active table. -/
theorem claim_C5_witness :
    ((alookup "r1"
        (executeAutomation (envOk "r1" "s1") "w" "a1" TriggerType.manual none
          mgr0).2.activeRuns).map (fun a => a.timeoutTimer))
      = some (some ((match autoA.actionConfig.timeoutSeconds with
          | some t => if t = 0 then 300 else t
          | none => 300) * 1000)) ∧
    ((getRun "w" "r1"
        (handleTimeout "r1" "T9"
          (executeAutomation (envOk "r1" "s1") "w" "a1" TriggerType.manual none
            mgr0).2).store).map (fun r => r.status)) = some .failure ∧
    ((getRun "w" "r1"
        (handleTimeout "r1" "T9"
          (executeAutomation (envOk "r1" "s1") "w" "a1" TriggerType.manual none
            mgr0).2).store).map (fun r => r.error))
      = some (some "Automation timed out") ∧
    alookup "r1"
        (handleTimeout "r1" "T9"
          (executeAutomation (envOk "r1" "s1") "w" "a1" TriggerType.manual none
            mgr0).2).activeRuns = none ∧
    "s1" ∈ (handleTimeout "r1" "T9"
        (executeAutomation (envOk "r1" "s1") "w" "a1" TriggerType.manual none
          mgr0).2).cancelRequests :=
  claim_C5_timeout_registration_and_firing (envOk "r1" "s1") "w" "a1" .manual none
    mgr0 wsW autoA "s1" "T9" rfl (by decide) (by decide) rfl rfl rfl

/-! ## Claim C9: shutdown cleanup -/

theorem unregisterAll_liveSubs_nil {rs : RegistryState} (inv : RegInv rs) :
    (unregisterAll rs).liveSubs = [] := by
  unfold unregisterAll
  dsimp only
  rw [List.filter_eq_nil_iff]
  intro p hp
  have htab := (inv.2 p hp).2
  cases he : alookup p.2 rs.triggers with
  | none =>
    rw [he] at htab
    simp at htab
  | some e =>
    rw [he] at htab
    simp at htab
    have hmem := alookup_mem he
    have hany : rs.triggers.any (fun kv => kv.2.subId == p.1) = true :=
      List.any_eq_true.mpr ⟨(p.2, e), hmem, by simp [htab]⟩
    simp [hany]

theorem storeWF_updateRun (root rid : String) (u : RunUpdates) (st : Store)
    (h : StoreWF st) : StoreWF (updateRun root rid u st).2 := by
  unfold updateRun
  cases hg : getRun root rid st with
  | none => exact h
  | some r => exact storeWF_saveRun root _ h

theorem updateRun_getRun_isSome (root rid : String) (u : RunUpdates) (st : Store)
    (root' rid' : String) (h : (getRun root' rid' st).isSome = true) :
    (getRun root' rid' (updateRun root rid u st).2).isSome = true := by
  unfold updateRun
  cases hg : getRun root rid st with
  | none => exact h
  | some r =>
    dsimp only
    show (alookup ((root', rid') : String × String)
      (aset (root, (applyRunUpdates r u).id) (applyRunUpdates r u) st.runs)).isSome = true
    exact alookup_aset_isSome _ _ _ _ h

theorem updateRun_getRun_ne (root rid : String) (u : RunUpdates) (st : Store)
    (hwf : StoreWF st) (root' rid' : String) (hne : rid' ≠ rid) :
    getRun root' rid' (updateRun root rid u st).2 = getRun root' rid' st := by
  unfold updateRun
  cases hg : getRun root rid st with
  | none => rfl
  | some r =>
    dsimp only
    have hid : r.id = rid := getRun_id_of_wf hwf hg
    show getRun root' rid' (saveRun root (applyRunUpdates r u) st) = _
    unfold getRun saveRun
    have hkey : ((root, (applyRunUpdates r u).id) : String × String) = (root, rid) := by
      show ((root, r.id) : String × String) = (root, rid)
      rw [hid]
    rw [hkey]
    refine alookup_aset_ne _ _ ?_
    intro he
    injection he with h1 h2
    exact hne h2

/-- The updates written for each run by the shutdown loop. -/
def cancelUpdates (now : String) : RunUpdates :=
  { status := some .cancelled
    completedAt := some (some now)
    sessionId := none
    summary := none
    error := some (some "App shutting down") }

theorem cleanupRunsFold_cons (now q : String) (a : ActiveRun)
    (t : List (String × ActiveRun)) (st : Store) :
    cleanupRunsFold now ((q, a) :: t) st
      = cleanupRunsFold now t
          (match (updateRun a.workspaceRoot q (cancelUpdates now) st).1 with
           | some u => updateAutomationAfterRun a.workspaceRoot a.automationId u now
               (updateRun a.workspaceRoot q (cancelUpdates now) st).2
           | none => (updateRun a.workspaceRoot q (cancelUpdates now) st).2) := rfl

theorem cleanupRunsFold_wf (now : String) :
    ∀ (l : List (String × ActiveRun)) (st : Store),
    StoreWF st → StoreWF (cleanupRunsFold now l st) := by
  intro l
  induction l with
  | nil =>
    intro st h
    exact h
  | cons hd t ih =>
    intro st hwf
    obtain ⟨q, a⟩ := hd
    rw [cleanupRunsFold_cons]
    cases hu : (updateRun a.workspaceRoot q (cancelUpdates now) st).1 with
    | none =>
      dsimp only
      exact ih _ (storeWF_updateRun _ _ _ _ hwf)
    | some u =>
      dsimp only
      exact ih _ (storeWF_updateAutomationAfterRun _ _ _ _
        (storeWF_updateRun _ _ _ _ hwf))

theorem cleanupRunsFold_getRun_ne (now root' rid' : String) :
    ∀ (l : List (String × ActiveRun)) (st : Store), StoreWF st →
    (∀ p ∈ l, p.1 ≠ rid') →
    getRun root' rid' (cleanupRunsFold now l st) = getRun root' rid' st := by
  intro l
  induction l with
  | nil =>
    intro st _ _
    rfl
  | cons hd t ih =>
    intro st hwf hne
    obtain ⟨q, a⟩ := hd
    have hq : q ≠ rid' := hne (q, a) (List.mem_cons_self _ _)
    rw [cleanupRunsFold_cons]
    cases hu : (updateRun a.workspaceRoot q (cancelUpdates now) st).1 with
    | none =>
      dsimp only
      rw [ih _ (storeWF_updateRun _ _ _ _ hwf)
        (fun p hp => hne p (List.mem_cons_of_mem _ hp))]
      exact updateRun_getRun_ne _ _ _ _ hwf _ _ (fun he => hq he.symm)
    | some u =>
      dsimp only
      rw [ih _ (storeWF_updateAutomationAfterRun _ _ _ _
        (storeWF_updateRun _ _ _ _ hwf))
        (fun p hp => hne p (List.mem_cons_of_mem _ hp))]
      rw [getRun_updateAutomationAfterRun]
      exact updateRun_getRun_ne _ _ _ _ hwf _ _ (fun he => hq he.symm)

theorem cleanupRunsFold_spec (now : String) :
    ∀ (l : List (String × ActiveRun)) (st : Store), StoreWF st →
    (∀ p ∈ l, (getRun p.2.workspaceRoot p.1 st).isSome = true) →
    (l.map Prod.fst).Nodup →
    ∀ p ∈ l, ∃ r,
      getRun p.2.workspaceRoot p.1 (cleanupRunsFold now l st) = some r ∧
      r.status = .cancelled ∧ r.error = some "App shutting down" ∧
      r.completedAt = some now := by
  intro l
  induction l with
  | nil =>
    intro st _ _ _ p hp
    simp at hp
  | cons hd t ih =>
    intro st hwf hstored hnd p hp
    obtain ⟨q, a⟩ := hd
    have hqs : (getRun a.workspaceRoot q st).isSome = true :=
      hstored (q, a) (List.mem_cons_self _ _)
    obtain ⟨r0, hg⟩ := Option.isSome_iff_exists.mp hqs
    have hid : r0.id = q := getRun_id_of_wf hwf hg
    have hup1 : (updateRun a.workspaceRoot q (cancelUpdates now) st).1
        = some (applyRunUpdates r0 (cancelUpdates now)) := by
      unfold updateRun
      rw [hg]
    have hup2 : (updateRun a.workspaceRoot q (cancelUpdates now) st).2
        = saveRun a.workspaceRoot (applyRunUpdates r0 (cancelUpdates now)) st := by
      unfold updateRun
      rw [hg]
    have hstep : cleanupRunsFold now ((q, a) :: t) st
        = cleanupRunsFold now t
            (updateAutomationAfterRun a.workspaceRoot a.automationId
              (applyRunUpdates r0 (cancelUpdates now)) now
              (saveRun a.workspaceRoot (applyRunUpdates r0 (cancelUpdates now)) st)) := by
      rw [cleanupRunsFold_cons, hup1, hup2]
    have hwf2 : StoreWF (updateAutomationAfterRun a.workspaceRoot a.automationId
        (applyRunUpdates r0 (cancelUpdates now)) now
        (saveRun a.workspaceRoot (applyRunUpdates r0 (cancelUpdates now)) st)) :=
      storeWF_updateAutomationAfterRun _ _ _ _ (storeWF_saveRun _ _ hwf)
    have hndt : (t.map Prod.fst).Nodup := (List.nodup_cons.mp hnd).2
    have hqnotin : q ∉ t.map Prod.fst := (List.nodup_cons.mp hnd).1
    rcases List.mem_cons.mp hp with hp | hp
    · subst hp
      rw [hstep]
      refine ⟨applyRunUpdates r0 (cancelUpdates now), ?_, rfl, rfl, rfl⟩
      rw [cleanupRunsFold_getRun_ne now _ _ t _ hwf2 ?hne]
      case hne =>
        intro p' hp' he
        apply hqnotin
        have hm := List.mem_map_of_mem Prod.fst hp'
        rw [he] at hm
        exact hm
      rw [getRun_updateAutomationAfterRun]
      unfold getRun saveRun
      have hkey : ((a.workspaceRoot,
          (applyRunUpdates r0 (cancelUpdates now)).id) : String × String)
          = (a.workspaceRoot, q) := by
        show ((a.workspaceRoot, r0.id) : String × String) = _
        rw [hid]
      rw [hkey]
      exact alookup_aset_self _ _ _
    · rw [hstep]
      refine ih _ hwf2 ?_ hndt p hp
      intro p' hp'
      rw [getRun_updateAutomationAfterRun]
      unfold getRun saveRun
      exact alookup_aset_isSome _ _ _ _ (hstored p' (List.mem_cons_of_mem _ hp'))

theorem handleSessionEvent_noMapping (ev : SessionEvent) (now : String)
    (s : ManagerState) (h : s.sessionToRun = []) :
    handleSessionEvent ev now s = s := by
  unfold handleSessionEvent
  by_cases hk : ev.kind ≠ .complete ∧ ev.kind ≠ .error
  · rw [if_pos hk]
  · rw [if_neg hk]
    cases hs : ev.sessionId with
    | none => rfl
    | some sid =>
      dsimp only
      rw [h]
      rfl

/-- C9: `cleanup`, invoked with any set of still-active runs (whose records
exist in the well-formed store), unregisters every trigger (emptying the
trigger table and stopping every live subscription), persists every active
run as `cancelled` with the fixed error "App shutting down" while updating
the owning automation's aggregates, clears the active-run and session-to-run
indices, and detaches from the session-event stream, so every subsequent
completion or error notification is a no-op. -/
theorem claim_C9_cleanup_finalizes_all (now : String) (s : ManagerState)
    (hreg : RegInv s.registry)
    (hwf : StoreWF s.store)
    (hstored : ∀ p ∈ s.activeRuns, (getRun p.2.workspaceRoot p.1 s.store).isSome = true)
    (hnd : (s.activeRuns.map Prod.fst).Nodup) :
    (cleanup now s).registry.triggers = [] ∧
    (cleanup now s).registry.liveSubs = [] ∧
    (cleanup now s).activeRuns = [] ∧
    (cleanup now s).sessionToRun = [] ∧
    (cleanup now s).listenerAttached = false ∧
    (∀ p ∈ s.activeRuns, ∃ r,
      getRun p.2.workspaceRoot p.1 (cleanup now s).store = some r ∧
      r.status = .cancelled ∧ r.error = some "App shutting down" ∧
      r.completedAt = some now) ∧
    (∀ (ev : SessionEvent) (now2 : String),
      dispatchSessionEvent ev now2 (cleanup now s) = cleanup now s) ∧
    (∀ (ev : SessionEvent) (now2 : String),
      handleSessionEvent ev now2 (cleanup now s) = cleanup now s) := by
  refine ⟨rfl, unregisterAll_liveSubs_nil hreg, rfl, rfl, rfl, ?_, ?_, ?_⟩
  · intro p hp
    exact cleanupRunsFold_spec now s.activeRuns s.store hwf hstored hnd p hp
  · intro ev now2
    have hl : (cleanup now s).listenerAttached = false := rfl
    simp [dispatchSessionEvent, hl]
  · intro ev now2
    exact handleSessionEvent_noMapping ev now2 _ rfl

/-- A sample running run record `r1`. -/
def runR1 : AutomationRun :=
  { id := "r1"
    automationId := "a1"
    status := .running
    startedAt := "T1"
    completedAt := none
    sessionId := some "s1"
    summary := none
    error := none
    triggeredBy := .manual
    triggerContext := none }

/-- A sample running run record `r2`. -/
def runR2 : AutomationRun :=
  { id := "r2"
    automationId := "a1"
    status := .running
    startedAt := "T1"
    completedAt := none
    sessionId := some "s2"
    summary := none
    error := none
    triggeredBy := .manual
    triggerContext := none }

/-- Active-run entry for `r1`. -/
def activeR1 : ActiveRun :=
  { runId := "r1"
    automationId := "a1"
    workspaceId := "w"
    workspaceRoot := "w"
    sessionId := "s1"
    startTime := 0
    timeoutTimer := some 300000 }

/-- Active-run entry for `r2`. -/
def activeR2 : ActiveRun :=
  { runId := "r2"
    automationId := "a1"
    workspaceId := "w"
    workspaceRoot := "w"
    sessionId := "s2"
    startTime := 0
    timeoutTimer := some 300000 }

/-- A store with both running records persisted. -/
def storeBusy : Store :=
  { runs := [(("w", "r1"), runR1), (("w", "r2"), runR2)]
    autos := [("w", [autoA])]
    runLog := [] }

/-- A registry with one live clipboard trigger. -/
def regBusy : RegistryState :=
  { triggers := [("a1", { automationId := "a1", type := .clipboard, subId := 0 })]
    liveSubs := [(0, "a1")]
    nextSubId := 1 }

/-- A manager with two runs in flight and one registered trigger. -/
def mgrBusy : ManagerState :=
  { activeRuns := [("r1", activeR1), ("r2", activeR2)]
    sessionToRun := [("s1", "r1"), ("s2", "r2")]
    maxConcurrentRuns := 2
    store := storeBusy
    registry := regBusy
    listenerAttached := true
    cancelRequests := []
    events := [] }

/-- Witness for C9 at concrete inputs: shutting down with two running runs
empties every table and persists run `r1` as cancelled with the shutdown
message. -/
theorem claim_C9_witness :
    (cleanup "T9" mgrBusy).registry.liveSubs = [] ∧
    (cleanup "T9" mgrBusy).activeRuns = [] ∧
    (cleanup "T9" mgrBusy).sessionToRun = [] ∧
    (∃ r, getRun "w" "r1" (cleanup "T9" mgrBusy).store = some r ∧
      r.status = .cancelled ∧ r.error = some "App shutting down" ∧
      r.completedAt = some "T9") := by
  have h := claim_C9_cleanup_finalizes_all "T9" mgrBusy
    (by constructor
        · decide
        · decide)
    (by unfold StoreWF; decide) (by decide) (by decide)
  refine ⟨h.2.1, h.2.2.1, h.2.2.2.1, ?_⟩
  exact h.2.2.2.2.2.1 ("r1", activeR1) (by decide)
